import Mathlib

/-!
Shallow embedding of the quant-strategy-pipeline backtest core
(src/strategies/regime.py, src/strategies/risk_manager.py,
src/strategies/raaa_strategy.py, src/backtest/engine.py).

Modelling conventions:
* prices, rates, equity, sizes are rationals (Python floats);
* timestamps are integers counting minutes (Python datetime); the code's
  `total_seconds()/3600` becomes division by 60 over ℚ;
* a missing / NaN indicator value is `Option.none`;
* Python string reasons become closed inductive tags;
* Python division raises on a zero denominator; over ℚ, `x / 0 = 0`.
  No claim in this development evaluates a division at a zero denominator.
-/

inductive MarketRegime
  | TRENDING_BULL
  | TRENDING_BEAR
  | CHOP_HIGH_VOL
  | SQUEEZE_LOW_VOL
  | UNDEFINED
  deriving DecidableEq

inductive Direction
  | LONG
  | SHORT
  deriving DecidableEq

/-- Traded asset symbols (the engine's fixed two-asset universe). -/
inductive AssetSym
  | BTC
  | ETH
  deriving DecidableEq

/-- One 4H bar's indicator columns, as read by `RegimeEngine.classify_row`
(src/strategies/regime.py lines 88-96). `none` models a missing column or NaN. -/
structure Row4H where
  EMA_20 : Option ℚ
  EMA_50 : Option ℚ
  EMA_200 : Option ℚ
  ADX_14 : Option ℚ
  PLUS_DI_14 : Option ℚ
  MINUS_DI_14 : Option ℚ
  ATR_PCT_RANK_50 : Option ℚ
  BB_WIDTH_PCT_RANK_50 : Option ℚ
  deriving DecidableEq

/-- True when any required indicator is missing/NaN
(the `pd.isna(...).any()` check at regime.py line 99, together with the
KeyError fallback at line 128). -/
def Row4H.anyMissing (row : Row4H) : Bool :=
  row.EMA_20.isNone || row.EMA_50.isNone || row.EMA_200.isNone ||
  row.ADX_14.isNone || row.PLUS_DI_14.isNone || row.MINUS_DI_14.isNone ||
  row.ATR_PCT_RANK_50.isNone || row.BB_WIDTH_PCT_RANK_50.isNone

/-- Model of `RegimeEngine.classify_row` (regime.py lines 71-133): extract the eight
indicators (missing ⇒ UNDEFINED), then the four rules in source order. -/
def classify_row (row : Row4H) : MarketRegime :=
  match row.EMA_20, row.EMA_50, row.EMA_200, row.ADX_14, row.PLUS_DI_14,
        row.MINUS_DI_14, row.ATR_PCT_RANK_50, row.BB_WIDTH_PCT_RANK_50 with
  | some ema20, some ema50, some ema200, some adx, some plus_di, some minus_di,
    some atr_pct, some bb_width_pct =>
    if ema20 > ema50 ∧ ema50 > ema200 ∧ adx > 25 ∧ plus_di > minus_di then
      .TRENDING_BULL
    else if ema20 < ema50 ∧ ema50 < ema200 ∧ adx > 25 ∧ minus_di > plus_di then
      .TRENDING_BEAR
    else if adx < 20 ∧ atr_pct > 70 then
      .CHOP_HIGH_VOL
    else if adx < 20 ∧ atr_pct < 30 ∧ bb_width_pct < 20 then
      .SQUEEZE_LOW_VOL
    else
      .UNDEFINED
  | _, _, _, _, _, _, _, _ => .UNDEFINED

/-- The eight indicator values of a row once all are present. -/
structure RowVals where
  ema20 : ℚ
  ema50 : ℚ
  ema200 : ℚ
  adx : ℚ
  plus_di : ℚ
  minus_di : ℚ
  atr_pct : ℚ
  bb_width_pct : ℚ
  deriving DecidableEq

def Row4H.vals? (row : Row4H) : Option RowVals :=
  match row.EMA_20, row.EMA_50, row.EMA_200, row.ADX_14, row.PLUS_DI_14,
        row.MINUS_DI_14, row.ATR_PCT_RANK_50, row.BB_WIDTH_PCT_RANK_50 with
  | some a, some b, some c, some d, some e, some f, some g, some h =>
    some ⟨a, b, c, d, e, f, g, h⟩
  | _, _, _, _, _, _, _, _ => none

/-- Written from the SPEC's words (section 4.1): the classification rule
attached to each non-UNDEFINED regime, to be tried in the fixed precedence
order TRENDING_BULL, TRENDING_BEAR, CHOP_HIGH_VOL, SQUEEZE_LOW_VOL. -/
def specRule (v : RowVals) : MarketRegime → Prop
  | .TRENDING_BULL => v.ema20 > v.ema50 ∧ v.ema50 > v.ema200 ∧ v.adx > 25 ∧ v.plus_di > v.minus_di
  | .TRENDING_BEAR => v.ema20 < v.ema50 ∧ v.ema50 < v.ema200 ∧ v.adx > 25 ∧ v.minus_di > v.plus_di
  | .CHOP_HIGH_VOL => v.adx < 20 ∧ v.atr_pct > 70
  | .SQUEEZE_LOW_VOL => v.adx < 20 ∧ v.atr_pct < 30 ∧ v.bb_width_pct < 20
  | .UNDEFINED => False

instance (v : RowVals) (r : MarketRegime) : Decidable (specRule v r) := by
  cases r <;> simp only [specRule] <;> infer_instance

/-- Written from the SPEC's words: first matching rule wins, in the fixed
precedence order; UNDEFINED when no rule matches or any indicator is missing. -/
def specClassify (row : Row4H) : MarketRegime :=
  match row.vals? with
  | none => .UNDEFINED
  | some v =>
    (([MarketRegime.TRENDING_BULL, .TRENDING_BEAR, .CHOP_HIGH_VOL,
       .SQUEEZE_LOW_VOL].find? fun r => decide (specRule v r)).getD .UNDEFINED)

/-! ## RegimeEngine state machine (regime.py lines 51-229) -/

/-- Model of `RegimeEngine.cooldown_hours` (regime.py line 66). -/
def cooldown_hours : ℚ := 8

/-- Mutable fields of `RegimeEngine` (regime.py lines 61-67).
`regime_changed_at` is a timestamp in minutes. -/
structure RegimeState where
  current_regime : MarketRegime
  previous_regime : MarketRegime
  regime_changed_at : Option ℤ
  in_cooldown : Bool
  deriving DecidableEq

def regimeInit : RegimeState :=
  { current_regime := .UNDEFINED
    previous_regime := .UNDEFINED
    regime_changed_at := none
    in_cooldown := false }

/-- Hours elapsed from `t₀` to `t₁` (minutes → hours), the model of
`(t₁ - t₀).total_seconds() / 3600`. -/
def hoursBetween (t₁ t₀ : ℤ) : ℚ := ((t₁ - t₀ : ℤ) : ℚ) / 60

/-- Model of `RegimeEngine._is_opposite_trending_transition` (regime.py lines 196-205). -/
def is_opposite_trending_transition (prev new_r : MarketRegime) : Bool :=
  (prev = MarketRegime.TRENDING_BULL ∧ new_r = MarketRegime.TRENDING_BEAR) ∨
  (prev = MarketRegime.TRENDING_BEAR ∧ new_r = MarketRegime.TRENDING_BULL)

structure RegimeUpdateResult where
  regime : MarketRegime
  regime_changed : Bool
  immediate_close_required : Bool
  state : RegimeState
  deriving DecidableEq

/-- Model of `RegimeEngine.update_regime` (regime.py lines 135-194): classify, detect a
change, set cooldown/immediate-close flags, then expire the cooldown once
elapsed time ≥ 8 hours. -/
def update_regime (s : RegimeState) (row : Row4H) (current_time : ℤ) :
    RegimeUpdateResult :=
  let new_regime := classify_row row
  let step1 :=
    if new_regime ≠ s.current_regime then
      let prev := s.current_regime
      let s' := { s with previous_regime := prev, current_regime := new_regime }
      if is_opposite_trending_transition prev new_regime then
        ({ s' with regime_changed_at := some current_time, in_cooldown := true },
         true, true)
      else if new_regime = MarketRegime.UNDEFINED ∨ prev = MarketRegime.UNDEFINED then
        (s', true, false)
      else
        ({ s' with regime_changed_at := some current_time, in_cooldown := true },
         true, false)
    else (s, false, false)
  let s₁ := step1.1
  let s₂ :=
    match s₁.in_cooldown, s₁.regime_changed_at with
    | true, some changed_at =>
      if hoursBetween current_time changed_at ≥ cooldown_hours then
        { s₁ with in_cooldown := false }
      else s₁
    | _, _ => s₁
  ⟨new_regime, step1.2.1, step1.2.2, s₂⟩

/-- Model of `RegimeEngine._get_remaining_cooldown_hours` (regime.py lines 222-229).
The source reads the WALL CLOCK via `datetime.now()`; `now` is that reading. -/
def get_remaining_cooldown_hours (s : RegimeState) (now : ℤ) : ℚ :=
  match s.regime_changed_at with
  | none => 0
  | some t => max 0 (cooldown_hours - hoursBetween now t)

/-- Reason component of `RegimeEngine.can_enter_new_position`'s answer. -/
inductive EnterReason
  | inCooldownAfterRegimeChange (remaining_hours : ℚ)
  | undefinedRegime
  | ok
  deriving DecidableEq

/-- Model of `RegimeEngine.can_enter_new_position` (regime.py lines 207-220).
The remaining-cooldown figure embedded in the rejection reason comes from
`datetime.now()`, modelled by the `now` argument. -/
def can_enter_new_position (s : RegimeState) (now : ℤ) : Bool × EnterReason :=
  if s.in_cooldown then
    (false, .inCooldownAfterRegimeChange (get_remaining_cooldown_hours s now))
  else if s.current_regime = MarketRegime.UNDEFINED then
    (false, .undefinedRegime)
  else
    (true, .ok)

/-! ## RiskManager (risk_manager.py lines 41-408) -/

/-- Thresholds fixed in `RiskManager.__init__` (risk_manager.py lines 66-88). -/
def dd_limit_soft : ℚ := 1/10

def dd_limit_firm : ℚ := 3/20

def dd_limit_hard : ℚ := 1/5

def max_concurrent_positions : ℕ := 2

def max_margin_per_position : ℚ := 1/4

def max_total_margin : ℚ := 1/2

def rm_leverage : ℚ := 3

def consecutive_loss_scale_threshold : ℕ := 3

def consecutive_loss_stop_threshold : ℕ := 5

def corr_high_threshold : ℚ := 9/10

def corr_adjusted_margin_limit : ℚ := 2/5

def funding_warning_threshold : ℚ := 1/1000

def funding_stop_threshold : ℚ := 3/1000

/-- Mutable fields of `RiskManager` (risk_manager.py lines 58-79).
`current_date` is a day index (timestamp in minutes divided by 1440). -/
structure RiskState where
  initial_equity : ℚ
  current_equity : ℚ
  max_equity : ℚ
  daily_start_equity : ℚ
  current_date : Option ℤ
  consecutive_losses : ℕ
  deriving DecidableEq

def riskInit (initial_equity : ℚ) : RiskState :=
  { initial_equity
    current_equity := initial_equity
    max_equity := initial_equity
    daily_start_equity := initial_equity
    current_date := none
    consecutive_losses := 0 }

/-- Day index of a minute timestamp (the model of `datetime.date()`). -/
def dayOf (t : ℤ) : ℤ := t / 1440

/-- Model of `RiskManager._get_current_drawdown` (risk_manager.py lines 361-365). -/
def get_current_drawdown (s : RiskState) : ℚ :=
  if s.max_equity = 0 then 0
  else (s.max_equity - s.current_equity) / s.max_equity

/-- Model of `RiskManager._get_daily_loss_pct` (risk_manager.py lines 367-374). -/
def get_daily_loss_pct (s : RiskState) : ℚ :=
  if s.daily_start_equity = 0 then 0
  else if s.current_equity - s.daily_start_equity ≥ 0 then 0
  else |s.current_equity - s.daily_start_equity| / s.daily_start_equity

/-- Model of `RiskManager.update_equity` (risk_manager.py lines 92-113). -/
def rm_update_equity (s : RiskState) (new_equity : ℚ) (current_day : ℤ) :
    RiskState :=
  let s' := { s with current_equity := new_equity
                     max_equity := max s.max_equity new_equity }
  if s'.current_date ≠ some current_day then
    { s' with current_date := some current_day, daily_start_equity := new_equity }
  else s'

/-- Model of `RiskManager.record_trade_result` (risk_manager.py lines 376-389). -/
def record_trade_result (s : RiskState) (is_win : Bool) : RiskState :=
  if is_win then { s with consecutive_losses := 0 }
  else { s with consecutive_losses := s.consecutive_losses + 1 }

/-- Model of `RiskManager.reset_consecutive_losses` (risk_manager.py lines 391-395). -/
def reset_consecutive_losses (s : RiskState) : RiskState :=
  { s with consecutive_losses := 0 }

/-- Rejection reasons of `validate_entry`, one per early-return branch
(risk_manager.py lines 145-220). -/
inductive RejectReason
  | hardDDLimit
  | firmDDLimit
  | dailyLossLimit
  | maxConcurrentPositions
  | totalMarginLimit
  | extremeVolatility
  | consecutiveLossLimit
  | extremeFundingRate
  deriving DecidableEq

/-- Non-rejecting annotations accumulated in `reasons` (risk_manager.py
lines 174, 190, 196, 206, 220). -/
inductive RiskWarning
  | highCorrelation
  | highVolatility
  | softDD
  | consecutiveLossScale
  | highFundingRate
  deriving DecidableEq

inductive EntryReason
  | rejected (r : RejectReason)
  | passed (warnings : List RiskWarning)
  deriving DecidableEq

structure EntryDecision where
  allow : Bool
  size_multiplier : ℚ
  reason : EntryReason
  deriving DecidableEq

/-- Model of `RiskManager.validate_entry` (risk_manager.py lines 115-227): the eleven
checks in source order, short-circuiting on the first rejection.  The
`direction` argument is, as in the source, never used by the decision logic
(it appears only in log strings).  Note the margin check divides by
`current_equity` (Python raises at zero equity; the ℚ model yields 0). -/
def validate_entry (s : RiskState) (direction : Direction)
    (active_positions_count : ℕ) (current_margin_usage : ℚ)
    (atr_percentile : ℚ) (btc_eth_correlation : Option ℚ)
    (funding_rate : Option ℚ) : EntryDecision :=
  let _ := direction
  let drawdown := get_current_drawdown s
  if drawdown > dd_limit_hard then ⟨false, 0, .rejected .hardDDLimit⟩
  else if drawdown > dd_limit_firm then ⟨false, 0, .rejected .firmDDLimit⟩
  else if get_daily_loss_pct s > 1/20 then ⟨false, 0, .rejected .dailyLossLimit⟩
  else if active_positions_count ≥ max_concurrent_positions then
    ⟨false, 0, .rejected .maxConcurrentPositions⟩
  else
    let high_corr : Bool :=
      match btc_eth_correlation with
      | some c => decide (c > corr_high_threshold)
      | none => false
    let effective_margin_limit :=
      if high_corr then corr_adjusted_margin_limit else max_total_margin
    let warnings0 : List RiskWarning :=
      if high_corr then [.highCorrelation] else []
    if current_margin_usage / s.current_equity ≥ effective_margin_limit then
      ⟨false, 0, .rejected .totalMarginLimit⟩
    else if atr_percentile > 90 then ⟨false, 0, .rejected .extremeVolatility⟩
    else
      let sw1 :=
        if atr_percentile > 80 then (((1:ℚ)/2), warnings0 ++ [RiskWarning.highVolatility])
        else ((1:ℚ), warnings0)
      let sw2 :=
        if drawdown > dd_limit_soft then (sw1.1 * (1/2), sw1.2 ++ [RiskWarning.softDD])
        else sw1
      if s.consecutive_losses ≥ consecutive_loss_stop_threshold then
        ⟨false, 0, .rejected .consecutiveLossLimit⟩
      else
        let sw3 :=
          if s.consecutive_losses ≥ consecutive_loss_scale_threshold then
            (sw2.1 * (1/2), sw2.2 ++ [RiskWarning.consecutiveLossScale])
          else sw2
        match funding_rate with
        | some f =>
          if |f| > funding_stop_threshold then
            ⟨false, 0, .rejected .extremeFundingRate⟩
          else if |f| > funding_warning_threshold then
            ⟨true, sw3.1, .passed (sw3.2 ++ [RiskWarning.highFundingRate])⟩
          else ⟨true, sw3.1, .passed sw3.2⟩
        | none => ⟨true, sw3.1, .passed sw3.2⟩

structure SizeResult where
  num_coins : ℚ
  position_size_usd : ℚ
  required_margin : ℚ
  deriving DecidableEq

/-- Model of `RiskManager.calculate_position_size` (risk_manager.py lines 229-284). -/
def calculate_position_size (s : RiskState)
    (price atr confidence size_multiplier : ℚ) : SizeResult :=
  let risk_per_trade : ℚ := 1/50
  let stop_width := 2 * atr
  if stop_width = 0 ∨ atr = 0 then ⟨0, 0, 0⟩
  else
    let risk_amount := s.current_equity * risk_per_trade
    let num_coins := risk_amount / stop_width
    let position_size_usd := num_coins * price
    let final0 := position_size_usd * confidence * size_multiplier
    let max_notional := s.current_equity * max_margin_per_position * rm_leverage
    let final_size_usd := if final0 > max_notional then max_notional else final0
    ⟨final_size_usd / price, final_size_usd, final_size_usd / rm_leverage⟩

/-- Model of `RiskManager.get_stop_loss_price` (risk_manager.py lines 286-308). -/
def get_stop_loss_price (entry_price : ℚ) (direction : Direction) (atr : ℚ) : ℚ :=
  let stop_width := 2 * atr
  match direction with
  | .LONG => entry_price - stop_width
  | .SHORT => entry_price + stop_width

/-- Model of `RiskManager.check_liquidation_buffer` (risk_manager.py lines 310-338). -/
def check_liquidation_buffer (entry_price liquidation_price atr : ℚ) :
    Bool × ℚ :=
  let buffer_distance := |entry_price - liquidation_price|
  let buffer_atr := if atr > 0 then buffer_distance / atr else 0
  (decide (buffer_atr ≥ 3), buffer_atr)

/-! ## Position (raaa_strategy.py lines 50-226) -/

/-- Closed tags for the signal/entry reason strings produced while generating
a signal (raaa_strategy.py / engine.py `_get_signal_without_regime_update`).
Strategy-internal reason strings are carried as opaque numeric tags supplied
by the dispatch argument. -/
inductive SignalReason
  | inSymbolCooldown (until_time : ℤ)
  | regimeBlocked (r : EnterReason)
  | pyramidingAt (profit_r : ℚ)
  | undefinedRegime
  | strategyTag (tag : ℕ)
  deriving DecidableEq

inductive Signal
  | HOLD
  | ENTRY_LONG
  | ENTRY_SHORT
  | PYRAMID_LONG
  | PYRAMID_SHORT
  deriving DecidableEq

def Signal.isLong : Signal → Bool
  | .ENTRY_LONG | .PYRAMID_LONG => true
  | _ => false

/-- Model of `'LONG' if 'LONG' in signal else 'SHORT'` (engine.py line 459). -/
def Signal.direction (s : Signal) : Direction :=
  if s.isLong then .LONG else .SHORT

def Signal.isPyramid : Signal → Bool
  | .PYRAMID_LONG | .PYRAMID_SHORT => true
  | _ => false

/-- The fields of a `Position` object (raaa_strategy.py lines 57-105), plus
`entry_margin`, which engine.py line 605 stores on the object after opening. -/
structure Position where
  symbol : AssetSym
  direction : Direction
  entry_price : ℚ
  size : ℚ
  entry_time : ℤ
  atr : ℚ
  regime : MarketRegime
  strategy_type : SignalReason
  stop_loss : Option ℚ
  trailing_stop : Option ℚ
  trailing_active : Bool
  partial_tp_done : Bool
  tp_2R : Bool
  tp_3R : Bool
  tp_4R : Bool
  pyramided : Bool
  pyramid_count : ℕ
  original_size : ℚ
  pyramid_entries : List (ℚ × ℚ)
  initial_r : ℚ
  current_avg_price : ℚ
  highest_high : Option ℚ
  lowest_low : Option ℚ
  entry_margin : ℚ
  deriving DecidableEq

/-- Model of `Position.__init__` (raaa_strategy.py lines 57-105). -/
def Position.mk_open (symbol : AssetSym) (direction : Direction)
    (entry_price size : ℚ) (entry_time : ℤ) (atr : ℚ) (regime : MarketRegime)
    (strategy_type : SignalReason) : Position :=
  { symbol, direction, entry_price, size, entry_time, atr, regime, strategy_type
    stop_loss := none
    trailing_stop := none
    trailing_active := false
    partial_tp_done := false
    tp_2R := false
    tp_3R := false
    tp_4R := false
    pyramided := false
    pyramid_count := 0
    original_size := size
    pyramid_entries := [(entry_price, size)]
    initial_r := (3/2) * atr
    current_avg_price := entry_price
    highest_high := if direction = .LONG then some entry_price else none
    lowest_low := if direction = .SHORT then some entry_price else none
    entry_margin := 0 }

/-- Model of `Position.add_pyramid` (raaa_strategy.py lines 112-148). -/
def Position.add_pyramid (p : Position) (pyramid_price pyramid_size atr : ℚ) :
    Position :=
  let entries := p.pyramid_entries ++ [(pyramid_price, pyramid_size)]
  let total_value := (entries.map fun e => e.1 * e.2).sum
  let total_size := (entries.map fun e => e.2).sum
  let avg := total_value / total_size
  let stop_width := (3/2) * atr
  { p with
    pyramid_entries := entries
    pyramid_count := p.pyramid_count + 1
    size := p.size + pyramid_size
    pyramided := true
    current_avg_price := avg
    stop_loss := some (match p.direction with
      | .LONG => avg - stop_width
      | .SHORT => avg + stop_width)
    initial_r := stop_width }

/-- Model of `Position.update_trailing_stop` (raaa_strategy.py lines 150-202). -/
def Position.update_trailing_stop (p : Position)
    (current_high current_low atr : ℚ) : Position :=
  if ¬p.trailing_active then p
  else
    let trail_distance := 2 * atr
    match p.direction with
    | .LONG =>
      let hh := match p.highest_high with
        | none => current_high
        | some h => if current_high > h then current_high else h
      let new_trailing_stop := hh - trail_distance
      let p' := { p with highest_high := some hh }
      match p'.trailing_stop with
      | none => { p' with trailing_stop := some new_trailing_stop }
      | some s =>
        if new_trailing_stop > s then { p' with trailing_stop := some new_trailing_stop }
        else p'
    | .SHORT =>
      let ll := match p.lowest_low with
        | none => current_low
        | some l => if current_low < l then current_low else l
      let new_trailing_stop := ll + trail_distance
      let p' := { p with lowest_low := some ll }
      match p'.trailing_stop with
      | none => { p' with trailing_stop := some new_trailing_stop }
      | some s =>
        if new_trailing_stop < s then { p' with trailing_stop := some new_trailing_stop }
        else p'

/-- Model of `Position.activate_trailing_stop` (raaa_strategy.py lines 204-208). -/
def Position.activate_trailing_stop (p : Position) : Position :=
  { p with trailing_active := true }

/-- Model of `Position.get_profit_r` (raaa_strategy.py lines 210-226). -/
def Position.get_profit_r (p : Position) (current_price : ℚ) : ℚ :=
  let profit_raw := match p.direction with
    | .LONG => current_price - p.current_avg_price
    | .SHORT => p.current_avg_price - current_price
  if p.initial_r > 0 then profit_raw / p.initial_r else 0

/-! ## RAAAStrategy state and per-position logic (raaa_strategy.py 229-844) -/

/-- A total map over the two symbols. -/
structure SymMap (α : Type) where
  btc : α
  eth : α
  deriving DecidableEq

def SymMap.get {α : Type} (m : SymMap α) : AssetSym → α
  | .BTC => m.btc
  | .ETH => m.eth

def SymMap.set {α : Type} (m : SymMap α) : AssetSym → α → SymMap α
  | .BTC, v => { m with btc := v }
  | .ETH, v => { m with eth := v }

/-- Model of `RAAAStrategy.cooldown_loss` / `cooldown_profit` in minutes
(raaa_strategy.py lines 252-253). -/
def cooldown_loss : ℤ := 30

def cooldown_profit : ℤ := 15

/-- Mutable fields of `RAAAStrategy`: the positions map and the per-symbol
cooldown map (raaa_strategy.py lines 248-251). -/
structure StrategyState where
  positions : SymMap (Option Position)
  cooldowns : SymMap (Option ℤ)
  deriving DecidableEq

def strategyInit : StrategyState :=
  { positions := ⟨none, none⟩, cooldowns := ⟨none, none⟩ }

/-- Model of `RAAAStrategy.open_position` (raaa_strategy.py lines 751-774): construct
the position and set its initial stop via `get_stop_loss_price`. -/
def open_position (st : StrategyState) (symbol : AssetSym)
    (direction : Direction) (entry_price size : ℚ) (entry_time : ℤ) (atr : ℚ)
    (regime : MarketRegime) (strategy_type : SignalReason) :
    StrategyState × Position :=
  let p0 := Position.mk_open symbol direction entry_price size entry_time atr
    regime strategy_type
  let p := { p0 with stop_loss := some (get_stop_loss_price entry_price direction atr) }
  ({ st with positions := st.positions.set symbol (some p) }, p)

structure CloseResult where
  closed_size : ℚ
  pnl : ℚ
  pnl_pct : ℚ
  deriving DecidableEq

/-- Model of `RAAAStrategy.close_position` (raaa_strategy.py lines 776-830): computes
P&L, deletes the position and sets the symbol cooldown on a full close,
shrinks the size on a partial close. -/
def close_position (st : StrategyState) (symbol : AssetSym)
    (exit_price : ℚ) (exit_time : ℤ) (exit_pct : ℚ) :
    StrategyState × CloseResult :=
  match st.positions.get symbol with
  | none => (st, ⟨0, 0, 0⟩)
  | some p =>
    let pnl_per_coin := match p.direction with
      | .LONG => exit_price - p.current_avg_price
      | .SHORT => p.current_avg_price - exit_price
    let closed_size := p.size * exit_pct
    let pnl := pnl_per_coin * closed_size
    let pnl_pct :=
      if closed_size > 0 then pnl / (p.current_avg_price * closed_size) * 100
      else 0
    if exit_pct ≥ 1 then
      let cd := if pnl ≥ 0 then cooldown_profit else cooldown_loss
      ({ st with positions := st.positions.set symbol none
                 cooldowns := st.cooldowns.set symbol (some (exit_time + cd)) },
       ⟨closed_size, pnl, pnl_pct⟩)
    else
      let p' := { p with size := p.size - closed_size }
      ({ st with positions := st.positions.set symbol (some p') },
       ⟨closed_size, pnl, pnl_pct⟩)

/-- Model of `RAAAStrategy._check_pyramiding` (raaa_strategy.py lines 507-546): `none`
unless pyramid_count < 1, no partial TP yet, and profit ≥ 1.5R. The `atr`
argument is, as in the source, unused by the decision. -/
def check_pyramiding (p : Position) (current_price atr : ℚ) : Option Signal :=
  let _ := atr
  if 1 ≤ p.pyramid_count then none
  else if p.partial_tp_done then none
  else if p.get_profit_r current_price < 3/2 then none
  else some (match p.direction with
    | .LONG => .PYRAMID_LONG
    | .SHORT => .PYRAMID_SHORT)

/-! ## Exit checks (raaa_strategy.py lines 640-749) -/

inductive ExitAction
  | STOP_LOSS
  | TRAILING_STOP
  | PARTIAL_TP_MR_1
  | PARTIAL_TP_MR_2
  | PARTIAL_TP_2R
  | PARTIAL_TP_3R
  | TIME_STOP
  | REGIME_EXIT
  | LIQUIDATION
  deriving DecidableEq

structure ExitSignal where
  action : ExitAction
  exit_pct : ℚ
  deriving DecidableEq

/-- The 15m bar fields the engine-level logic reads (close/high/low, ATR and
its percentile rank). -/
structure Bar15 where
  high : ℚ
  low : ℚ
  close : ℚ
  ATR_14 : ℚ
  ATR_PCT_RANK_50 : ℚ
  deriving DecidableEq

/-- Time-stop tail of `check_exits` (raaa_strategy.py lines 731-746). -/
def check_time_stop (p : Position) (profit_r : ℚ) (current_time : ℤ) :
    Position × Option ExitSignal :=
  let time_in_position := hoursBetween current_time p.entry_time
  let time_limit : ℚ :=
    if p.regime = MarketRegime.TRENDING_BULL ∨ p.regime = MarketRegime.TRENDING_BEAR then 24
    else if p.regime = MarketRegime.CHOP_HIGH_VOL then 12
    else 6
  if time_in_position ≥ time_limit ∧ profit_r < 1 then
    (p, some ⟨.TIME_STOP, 1⟩)
  else (p, none)

/-- Model of `RAAAStrategy.check_exits` (raaa_strategy.py lines 640-749).  Mutations of
the Python Position object (trailing activation/update, TP flags) are returned
in the first component; the second is the exit signal, if any.  Priority:
initial stop, trailing stop, partial TPs (mean-reversion variant in
CHOP_HIGH_VOL), then time stop. -/
def check_exits (p : Position) (row : Bar15) (current_time : ℤ) :
    Position × Option ExitSignal :=
  let current_price := row.close
  let stop_hit : Bool :=
    match p.stop_loss with
    | some sl => (p.direction = Direction.LONG ∧ row.low ≤ sl) ∨
                 (p.direction = Direction.SHORT ∧ row.high ≥ sl)
    | none => false
  if stop_hit then (p, some ⟨.STOP_LOSS, 1⟩)
  else
    let profit_r := p.get_profit_r current_price
    let p1 := if profit_r > 1 ∧ ¬p.trailing_active then p.activate_trailing_stop else p
    let p2 := if p1.trailing_active then p1.update_trailing_stop row.high row.low row.ATR_14 else p1
    let trail_hit : Bool :=
      p2.trailing_active &&
      match p2.trailing_stop with
      | some ts => (p2.direction = Direction.LONG ∧ row.low ≤ ts) ∨
                   (p2.direction = Direction.SHORT ∧ row.high ≥ ts)
      | none => false
    if trail_hit then (p2, some ⟨.TRAILING_STOP, 1⟩)
    else if p2.regime = MarketRegime.CHOP_HIGH_VOL then
      if profit_r ≥ 1 ∧ ¬p2.tp_2R then
        ({ p2 with tp_2R := true, partial_tp_done := true },
         some ⟨.PARTIAL_TP_MR_1, 3/5⟩)
      else if profit_r ≥ 2 ∧ ¬p2.tp_3R then
        ({ p2 with tp_3R := true }, some ⟨.PARTIAL_TP_MR_2, 1⟩)
      else check_time_stop p2 profit_r current_time
    else
      if profit_r ≥ 2 ∧ ¬p2.tp_2R then
        ({ p2 with tp_2R := true, partial_tp_done := true },
         some ⟨.PARTIAL_TP_2R, 2/5⟩)
      else if profit_r ≥ 3 ∧ ¬p2.tp_3R then
        ({ p2 with tp_3R := true }, some ⟨.PARTIAL_TP_3R, 3/10⟩)
      else check_time_stop p2 profit_r current_time

/-- Model of `RAAAStrategy._calculate_confidence` (raaa_strategy.py lines 548-603) as
invoked by the engine, where `onchain_signals` is always `None`. -/
def calculate_confidence (signal : Signal) (btc_eth_correlation : Option ℚ)
    (funding_rate : Option ℚ) : ℚ :=
  if signal = Signal.HOLD then 1
  else
    let direction := signal.direction
    let confidence : ℚ :=
      match btc_eth_correlation with
      | some c => if c > 17/20 then 3/2 else 1
      | none => 1
    match funding_rate with
    | some f =>
      if |f| > 1/1000 ∧
         ((direction = Direction.LONG ∧ f > 0) ∨ (direction = Direction.SHORT ∧ f < 0)) then
        confidence * (3/4)
      else confidence
    | none => confidence

/-- The signal dict built by `_get_signal_without_regime_update`
(engine.py lines 333-400). -/
structure SignalDict where
  signal : Signal
  reason : SignalReason
  regime : MarketRegime
  confidence : ℚ
  deriving DecidableEq

/-- The outcome of the four regime-specific entry strategies
(`_trending_bull_strategy` etc., raaa_strategy.py lines 363-505).  Those
functions read only bar data, the active position and (for ETH) the BTC
position status, so the bar model takes them as an input of the run: a
function of the symbol, the regime and the symbol's active position. -/
def DispatchFun : Type :=
  AssetSym → MarketRegime → Option Position → Signal × SignalReason

/-- Model of `BacktestEngine._get_signal_without_regime_update` (engine.py lines
333-400): symbol cooldown check (expired entries are deleted), regime
cooldown / no-trade gate, pyramiding check in trending regimes, then the
regime dispatch.  `wall_clock` models the `datetime.now()` reading taken
inside `can_enter_new_position`'s rejection reason. -/
def get_signal_without_regime_update (dispatch : DispatchFun)
    (strat : StrategyState) (reg : RegimeState) (symbol : AssetSym)
    (current_time wall_clock : ℤ) (close atr : ℚ)
    (btc_eth_correlation funding_rate : Option ℚ) :
    StrategyState × SignalDict :=
  let afterCooldown : StrategyState × Option SignalDict :=
    match strat.cooldowns.get symbol with
    | some u =>
      if current_time < u then
        (strat, some ⟨.HOLD, .inSymbolCooldown u, reg.current_regime, 1⟩)
      else ({ strat with cooldowns := strat.cooldowns.set symbol none }, none)
    | none => (strat, none)
  match afterCooldown with
  | (strat', some d) => (strat', d)
  | (strat', none) =>
    let ce := can_enter_new_position reg wall_clock
    if ¬ce.1 then
      (strat', ⟨.HOLD, .regimeBlocked ce.2, reg.current_regime, 1⟩)
    else
      let active := strat'.positions.get symbol
      let pyramidSig : Option SignalDict :=
        match active with
        | some p =>
          if ¬p.partial_tp_done ∧
             (reg.current_regime = MarketRegime.TRENDING_BULL ∨
              reg.current_regime = MarketRegime.TRENDING_BEAR) then
            match check_pyramiding p close atr with
            | some s => some ⟨s, .pyramidingAt (p.get_profit_r close), reg.current_regime, 1⟩
            | none => none
          else none
        | none => none
      match pyramidSig with
      | some d => (strat', d)
      | none =>
        let sr : Signal × SignalReason :=
          if reg.current_regime = MarketRegime.UNDEFINED then (.HOLD, .undefinedRegime)
          else dispatch symbol reg.current_regime active
        let conf := calculate_confidence sr.1 btc_eth_correlation funding_rate
        (strat', ⟨sr.1, sr.2, reg.current_regime, conf⟩)

/-! ## BacktestEngine (engine.py lines 103-980) -/

/-- Model of `Trade` record (engine.py lines 51-75).  `entry_strategy` carries the
signal reason tag; `entry_regime` the regime value. -/
structure Trade where
  trade_id : ℕ
  symbol : AssetSym
  direction : Direction
  entry_time : ℤ
  entry_price : ℚ
  entry_size : ℚ
  entry_margin : ℚ
  entry_regime : MarketRegime
  entry_strategy : SignalReason
  exit_time : Option ℤ
  exit_price : Option ℚ
  exit_reason : Option ExitAction
  pnl_raw : ℚ
  pnl_fees : ℚ
  pnl_funding : ℚ
  pnl_net : ℚ
  pnl_pct : ℚ
  profit_r : ℚ
  holding_time_hours : ℚ
  is_pyramid : Bool
  pyramid_level : ℕ
  is_liquidation : Bool
  deriving DecidableEq

/-- Model of `EquitySnapshot` (engine.py lines 78-91). -/
structure EquitySnapshot where
  timestamp : ℤ
  equity : ℚ
  realized_pnl : ℚ
  unrealized_pnl : ℚ
  cash : ℚ
  margin_used : ℚ
  margin_ratio : ℚ
  active_positions : ℕ
  btc_price : ℚ
  eth_price : ℚ
  deriving DecidableEq

/-- Model of `FundingEvent` (engine.py lines 93-100). -/
structure FundingEvent where
  timestamp : ℤ
  symbol : AssetSym
  funding_rate : ℚ
  position_size_usd : ℚ
  funding_pnl : ℚ
  deriving DecidableEq

/-- Engine configuration fixed in `BacktestEngine.__init__`
(engine.py lines 116-164): initial capital, leverage, fee+slippage rate, and
the maintenance margin ratio `self.mmr = 0.005`. -/
structure EngineConfig where
  initial_capital : ℚ
  leverage : ℚ
  total_cost_rate : ℚ
  mmr : ℚ
  deriving DecidableEq

/-- Mutable engine state (engine.py lines 136-169). -/
structure EngineState where
  cash : ℚ
  equity : ℚ
  strategy : StrategyState
  regime : RegimeState
  risk : RiskState
  liquidation_prices : SymMap (Option ℚ)
  trades : List Trade
  trade_id_counter : ℕ
  equity_curve : List EquitySnapshot
  funding_events : List FundingEvent
  total_fees_paid : ℚ
  total_funding_paid : ℚ
  total_funding_received : ℚ
  deriving DecidableEq

/-- Model of `BacktestEngine._is_4h_close` (engine.py lines 325-327):
hour % 4 == 0 and minute == 0, i.e. minutes ≡ 0 mod 240. -/
def is_4h_close (t : ℤ) : Bool := decide (t % 240 = 0)

/-- Model of `BacktestEngine._should_apply_funding` (engine.py lines 329-331):
hour ∈ {0, 8, 16} and minute == 0. -/
def should_apply_funding (t : ℤ) : Bool :=
  decide (t % 1440 = 0 ∨ t % 1440 = 480 ∨ t % 1440 = 960)

/-- The daily-reset condition of engine.py line 274:
hour == 0 and minute == 0. -/
def is_daily_reset (t : ℤ) : Bool := decide (t % 1440 = 0)

/-- Model of `BacktestEngine._calculate_liquidation_price` (engine.py lines 897-922):
isolated-margin formula, clamped at zero. -/
def calculate_liquidation_price (mmr : ℚ) (entry_price : ℚ)
    (direction : Direction) (margin size_usd : ℚ) : ℚ :=
  if size_usd = 0 then 0
  else
    let num_coins := size_usd / entry_price
    let max_loss := margin - size_usd * mmr
    let lp := match direction with
      | .LONG => entry_price - max_loss / num_coins
      | .SHORT => entry_price + max_loss / num_coins
    max 0 lp

/-- The trade-matching predicate used by `_execute_exit`,
`_check_liquidations` and `_check_and_apply_funding`: same symbol, not yet
exited, same direction. -/
def TradeMatch (symbol : AssetSym) (direction : Direction) (t : Trade) : Bool :=
  t.symbol = symbol ∧ t.exit_time = none ∧ t.direction = direction

/-- Apply `f` to at most `budget` trades satisfying `m`, scanning in order:
the model of iterating over `matching_trades[:n]` (engine.py line 713). -/
def mark_first_matching : List Trade → ℕ → (Trade → Bool) → (Trade → Trade) →
    List Trade
  | [], _, _, _ => []
  | ts, 0, _, _ => ts
  | t :: ts, n+1, m, f =>
    if m t then f t :: mark_first_matching ts n m f
    else t :: mark_first_matching ts (n+1) m f

/-- Model of `BacktestEngine._execute_exit` (engine.py lines 656-732).  Note the
source's own order: `close_position` mutates the strategy before the
`closed_size == 0` early return, so a no-op close still keeps any strategy
mutation. -/
def execute_exit (cfg : EngineConfig) (st : EngineState) (symbol : AssetSym)
    (es : ExitSignal) (exit_price : ℚ) (exit_time : ℤ) : EngineState :=
  let posBefore := st.strategy.positions.get symbol
  let cp := close_position st.strategy symbol exit_price exit_time es.exit_pct
  let st1 := { st with strategy := cp.1 }
  if cp.2.closed_size = 0 then st1
  else
    match posBefore with
    | none => st1
    | some position =>
      let closed_size_usd := cp.2.closed_size * exit_price
      let exit_cost := closed_size_usd * cfg.total_cost_rate
      let pnl_net := cp.2.pnl - exit_cost
      let margin_returned := closed_size_usd / cfg.leverage * es.exit_pct
      let cash' := st1.cash + margin_returned + pnl_net
      let equity' := cash'
      let risk1 := rm_update_equity st1.risk equity' (dayOf exit_time)
      let risk2 :=
        if es.exit_pct ≥ 1 then record_trade_result risk1 (decide (pnl_net > 0))
        else risk1
      let m := TradeMatch symbol position.direction
      let n_matching := (st1.trades.filter m).length
      let k := ((1 : ℚ) / es.exit_pct).floor.toNat
      let budget := if k = 0 then 1 else k
      let upd := fun (t : Trade) =>
        { t with
          exit_time := some exit_time
          exit_price := some exit_price
          exit_reason := some es.action
          pnl_raw := cp.2.pnl / (n_matching : ℚ)
          pnl_fees := exit_cost / (n_matching : ℚ)
          pnl_net := pnl_net / (n_matching : ℚ)
          pnl_pct := cp.2.pnl_pct
          profit_r := position.get_profit_r exit_price
          holding_time_hours := hoursBetween exit_time t.entry_time }
      let trades' :=
        if n_matching = 0 then st1.trades
        else mark_first_matching st1.trades budget m upd
      let liq' :=
        if es.exit_pct ≥ 1 then st1.liquidation_prices.set symbol none
        else st1.liquidation_prices
      { st1 with
        cash := cash'
        equity := equity'
        total_fees_paid := st1.total_fees_paid + exit_cost
        risk := risk2
        trades := trades'
        liquidation_prices := liq' }

/-- Model of `BacktestEngine._close_all_positions` (engine.py lines 734-749): full
exit of every open position at the current close price. -/
def close_all_positions (cfg : EngineConfig) (st : EngineState)
    (current_time : ℤ) (btc_price eth_price : ℚ) : EngineState :=
  let st1 :=
    if (st.strategy.positions.btc).isSome then
      execute_exit cfg st .BTC ⟨.REGIME_EXIT, 1⟩ btc_price current_time
    else st
  if (st1.strategy.positions.eth).isSome then
    execute_exit cfg st1 .ETH ⟨.REGIME_EXIT, 1⟩ eth_price current_time
  else st1

/-- One symbol of `BacktestEngine._check_liquidations` (engine.py lines
751-808).  Note the source quirk at line 782: on liquidation the margin is
subtracted from equity, while cash is merely clamped at zero. -/
def check_liquidation_for (st : EngineState) (current_time : ℤ) (row : Bar15)
    (symbol : AssetSym) : EngineState :=
  match st.strategy.positions.get symbol, st.liquidation_prices.get symbol with
  | some position, some liquidation_price =>
    let liquidated : Bool :=
      match position.direction with
      | .LONG => decide (row.low ≤ liquidation_price)
      | .SHORT => decide (row.high ≥ liquidation_price)
    if liquidated then
      let equity' := st.equity - position.entry_margin
      let cash' := max 0 st.cash
      let m := TradeMatch symbol position.direction
      let upd := fun (t : Trade) =>
        { t with
          exit_time := some current_time
          exit_price := some liquidation_price
          exit_reason := some ExitAction.LIQUIDATION
          pnl_net := -t.entry_margin
          pnl_pct := -100
          is_liquidation := true
          holding_time_hours := hoursBetween current_time t.entry_time }
      let trades' := st.trades.map fun t => if m t then upd t else t
      let risk1 := rm_update_equity st.risk equity' (dayOf current_time)
      let risk2 := record_trade_result risk1 false
      { st with
        equity := equity'
        cash := cash'
        strategy := { st.strategy with
          positions := st.strategy.positions.set symbol none }
        liquidation_prices := st.liquidation_prices.set symbol none
        trades := trades'
        risk := risk2 }
    else st
  | _, _ => st

/-- Model of `BacktestEngine._check_liquidations` over both symbols. -/
def check_liquidations (st : EngineState) (current_time : ℤ)
    (bar_btc bar_eth : Bar15) : EngineState :=
  check_liquidation_for (check_liquidation_for st current_time bar_btc .BTC)
    current_time bar_eth .ETH

/-- One symbol of `BacktestEngine._check_exits` (engine.py lines 639-654):
run the strategy's exit checks (whose Position mutations persist) and
execute any signalled exit at the bar close. -/
def check_exits_for (cfg : EngineConfig) (st : EngineState)
    (current_time : ℤ) (row : Bar15) (symbol : AssetSym) : EngineState :=
  match st.strategy.positions.get symbol with
  | none => st
  | some p =>
    let ce := check_exits p row current_time
    let st1 := { st with strategy := { st.strategy with
      positions := st.strategy.positions.set symbol (some ce.1) } }
    match ce.2 with
    | some es => execute_exit cfg st1 symbol es row.close current_time
    | none => st1

def check_exits_all (cfg : EngineConfig) (st : EngineState)
    (current_time : ℤ) (bar_btc bar_eth : Bar15) : EngineState :=
  check_exits_for cfg (check_exits_for cfg st current_time bar_btc .BTC)
    current_time bar_eth .ETH

/-- Model of `funding_pnl` computation of `_check_and_apply_funding`
(engine.py lines 837-842): a long pays positive funding, a short receives it. -/
def funding_pnl_for (direction : Direction)
    (position_size_usd funding_rate : ℚ) : ℚ :=
  match direction with
  | .LONG => -(position_size_usd * funding_rate)
  | .SHORT => position_size_usd * funding_rate

/-- Funding bookkeeping on open trade records (engine.py lines 864-871). -/
def add_funding_to_trades (trades : List Trade) (symbol : AssetSym)
    (direction : Direction) (pnl : ℚ) : List Trade :=
  let m := TradeMatch symbol direction
  let n := (trades.filter m).length
  trades.map fun t =>
    if m t then { t with pnl_funding := t.pnl_funding + pnl / (n : ℚ) } else t

/-- One symbol of `BacktestEngine._check_and_apply_funding` (engine.py lines
810-876): with an open position and an available rate, apply the funding
P&L to cash and equity, record exactly one `FundingEvent`, and spread the
P&L over the open trade records; otherwise do nothing. -/
def apply_funding_for_symbol (st : EngineState) (current_time : ℤ)
    (price : ℚ) (rate? : Option ℚ) (symbol : AssetSym) : EngineState :=
  match st.strategy.positions.get symbol, rate? with
  | some position, some funding_rate =>
    let position_size_usd := position.size * price
    let funding_pnl := funding_pnl_for position.direction position_size_usd funding_rate
    { st with
      cash := st.cash + funding_pnl
      equity := st.equity + funding_pnl
      total_funding_paid :=
        if funding_pnl < 0 then st.total_funding_paid + |funding_pnl|
        else st.total_funding_paid
      total_funding_received :=
        if funding_pnl < 0 then st.total_funding_received
        else st.total_funding_received + funding_pnl
      funding_events := st.funding_events ++
        [⟨current_time, symbol, funding_rate, position_size_usd, funding_pnl⟩]
      trades := add_funding_to_trades st.trades symbol position.direction funding_pnl }
  | _, _ => st

/-- Model of `BacktestEngine._check_and_apply_funding` over both symbols. -/
def check_and_apply_funding (st : EngineState) (current_time : ℤ)
    (btc_price eth_price : ℚ) (rate_btc rate_eth : Option ℚ) : EngineState :=
  apply_funding_for_symbol
    (apply_funding_for_symbol st current_time btc_price rate_btc .BTC)
    current_time eth_price rate_eth .ETH

/-- Model of `BacktestEngine._execute_entry` (engine.py lines 446-637): the pyramiding
branch when the signal is a pyramid and a position is active, otherwise the
new-position branch guarded by `validate_entry`, sizing, cash and
liquidation-buffer checks. -/
def execute_entry (cfg : EngineConfig) (st : EngineState) (symbol : AssetSym)
    (sd : SignalDict) (row : Bar15) (current_time : ℤ)
    (btc_eth_correlation funding_rate : Option ℚ) : EngineState :=
  let signal := sd.signal
  let direction := signal.direction
  let entry_price := row.close
  let atr := row.ATR_14
  let atr_percentile := row.ATR_PCT_RANK_50
  let active := st.strategy.positions.get symbol
  match active, signal.isPyramid with
  | some ap, true =>
    let pyramid_size := ap.original_size * (1/2)
    let pyramid_size_usd := pyramid_size * entry_price
    let pyramid_margin := pyramid_size_usd / cfg.leverage
    if st.cash < pyramid_margin then st
    else
      let entry_cost := pyramid_size_usd * cfg.total_cost_rate
      let total_margin := ap.entry_margin + pyramid_margin
      let total_size_usd := (ap.size + pyramid_size) * entry_price
      let liquidation_price := calculate_liquidation_price cfg.mmr
        ap.current_avg_price direction total_margin total_size_usd
      let buf := check_liquidation_buffer entry_price liquidation_price atr
      if ¬buf.1 then st
      else
        let p' := ap.add_pyramid entry_price pyramid_size atr
        let trade : Trade :=
          { trade_id := st.trade_id_counter
            symbol, direction
            entry_time := current_time
            entry_price
            entry_size := pyramid_size
            entry_margin := pyramid_margin
            entry_regime := sd.regime
            entry_strategy := sd.reason
            exit_time := none, exit_price := none, exit_reason := none
            pnl_raw := 0, pnl_fees := 0, pnl_funding := 0, pnl_net := 0
            pnl_pct := 0, profit_r := 0, holding_time_hours := 0
            is_pyramid := true
            pyramid_level := p'.pyramid_count
            is_liquidation := false }
        { st with
          strategy := { st.strategy with
            positions := st.strategy.positions.set symbol (some p') }
          liquidation_prices := st.liquidation_prices.set symbol (some liquidation_price)
          cash := st.cash - (pyramid_margin + entry_cost)
          total_fees_paid := st.total_fees_paid + entry_cost
          trades := st.trades ++ [trade]
          trade_id_counter := st.trade_id_counter + 1 }
  | _, _ =>
    let margin_of := fun (po : Option Position) =>
      match po with
      | some p => p.size * entry_price / cfg.leverage
      | none => 0
    let current_margin_used :=
      margin_of st.strategy.positions.btc + margin_of st.strategy.positions.eth
    let active_count :=
      (if (st.strategy.positions.btc).isSome then 1 else 0) +
      (if (st.strategy.positions.eth).isSome then 1 else 0)
    let vd := validate_entry st.risk direction active_count current_margin_used
      atr_percentile btc_eth_correlation funding_rate
    if ¬vd.allow then st
    else
      let sz := calculate_position_size st.risk entry_price atr sd.confidence
        vd.size_multiplier
      if sz.num_coins = 0 ∨ sz.position_size_usd = 0 then st
      else if st.cash < sz.required_margin then st
      else
        let entry_cost := sz.position_size_usd * cfg.total_cost_rate
        let liquidation_price := calculate_liquidation_price cfg.mmr entry_price
          direction sz.required_margin sz.position_size_usd
        let buf := check_liquidation_buffer entry_price liquidation_price atr
        if ¬buf.1 then st
        else
          let op := open_position st.strategy symbol direction entry_price
            sz.num_coins current_time atr sd.regime sd.reason
          let pos' := { op.2 with entry_margin := sz.required_margin }
          let strat' := { op.1 with
            positions := op.1.positions.set symbol (some pos') }
          let risk' := rm_update_equity st.risk st.equity (dayOf current_time)
          let trade : Trade :=
            { trade_id := st.trade_id_counter
              symbol, direction
              entry_time := current_time
              entry_price
              entry_size := sz.num_coins
              entry_margin := sz.required_margin
              entry_regime := sd.regime
              entry_strategy := sd.reason
              exit_time := none, exit_price := none, exit_reason := none
              pnl_raw := 0, pnl_fees := 0, pnl_funding := 0, pnl_net := 0
              pnl_pct := 0, profit_r := 0, holding_time_hours := 0
              is_pyramid := false
              pyramid_level := 0
              is_liquidation := false }
          { st with
            strategy := strat'
            liquidation_prices := st.liquidation_prices.set symbol (some liquidation_price)
            cash := st.cash - (sz.required_margin + entry_cost)
            total_fees_paid := st.total_fees_paid + entry_cost
            risk := risk'
            trades := st.trades ++ [trade]
            trade_id_counter := st.trade_id_counter + 1 }

/-- One symbol of `BacktestEngine._check_entry_signals` (engine.py lines
402-444): generate the signal and execute it unless it is HOLD. -/
def check_entry_for (cfg : EngineConfig) (dispatch : DispatchFun)
    (st : EngineState) (current_time wall_clock : ℤ) (row : Bar15)
    (symbol : AssetSym) (btc_eth_correlation funding_rate : Option ℚ) :
    EngineState :=
  let gs := get_signal_without_regime_update dispatch st.strategy st.regime
    symbol current_time wall_clock row.close row.ATR_14 btc_eth_correlation
    funding_rate
  let st1 := { st with strategy := gs.1 }
  if gs.2.signal ≠ Signal.HOLD then
    execute_entry cfg st1 symbol gs.2 row current_time btc_eth_correlation
      funding_rate
  else st1

/-- Model of `BacktestEngine._check_entry_signals`: BTC first, then ETH, in the
source's fixed order. -/
def check_entry_signals (cfg : EngineConfig) (dispatch : DispatchFun)
    (st : EngineState) (current_time wall_clock : ℤ) (bar_btc bar_eth : Bar15)
    (btc_eth_correlation funding_btc funding_eth : Option ℚ) : EngineState :=
  let st1 := check_entry_for cfg dispatch st current_time wall_clock bar_btc
    .BTC btc_eth_correlation funding_btc
  check_entry_for cfg dispatch st1 current_time wall_clock bar_eth .ETH
    btc_eth_correlation funding_eth

/-- Model of `BacktestEngine._update_equity_curve` (engine.py lines 941-980):
mark-to-market equity and one appended snapshot. -/
def update_equity_curve (cfg : EngineConfig) (st : EngineState)
    (current_time : ℤ) (btc_price eth_price : ℚ) : EngineState :=
  let contrib := fun (po : Option Position) (price : ℚ) =>
    match po with
    | some position =>
      let pnl_per_coin := match position.direction with
        | .LONG => price - position.current_avg_price
        | .SHORT => position.current_avg_price - price
      (pnl_per_coin * position.size, position.size * price / cfg.leverage)
    | none => ((0 : ℚ), (0 : ℚ))
  let cb := contrib st.strategy.positions.btc btc_price
  let ce := contrib st.strategy.positions.eth eth_price
  let unrealized_pnl := cb.1 + ce.1
  let margin_used := cb.2 + ce.2
  let realized_pnl := st.equity - cfg.initial_capital - unrealized_pnl
  let equity' := st.cash + unrealized_pnl
  let margin_ratio := if equity' > 0 then margin_used / equity' else 0
  let n_active :=
    (if (st.strategy.positions.btc).isSome then 1 else 0) +
    (if (st.strategy.positions.eth).isSome then 1 else 0)
  { st with
    equity := equity'
    equity_curve := st.equity_curve ++
      [⟨current_time, equity', realized_pnl, unrealized_pnl, st.cash,
        margin_used, margin_ratio, n_active, btc_price, eth_price⟩] }

/-- The per-bar inputs of the main event loop (engine.py lines 228-292):
bar timestamp, the synchronized BTC 4H row, the two 15m bars, the 4H
correlation column, and the funding-rate lookups for the bar. -/
structure BarData where
  t : ℤ
  row4h_btc : Row4H
  bar_btc : Bar15
  bar_eth : Bar15
  btc_eth_correlation : Option ℚ
  funding_btc : Option ℚ
  funding_eth : Option ℚ

/-- One iteration of the main event loop of `BacktestEngine.run`
(engine.py lines 228-292), in the source's fixed order: regime update on 4H
closes (with immediate close-all on an opposite-trend flip), funding
settlement, daily reset, liquidation checks, exit checks, entry checks,
equity snapshot.  `wall_clock` is the `datetime.now()` reading visible to
`can_enter_new_position`. -/
def process_bar (cfg : EngineConfig) (dispatch : DispatchFun)
    (st : EngineState) (bar : BarData) (wall_clock : ℤ) : EngineState :=
  let st1 :=
    if is_4h_close bar.t then
      let u := update_regime st.regime bar.row4h_btc bar.t
      let sta := { st with regime := u.state }
      if u.immediate_close_required then
        close_all_positions cfg sta bar.t bar.bar_btc.close bar.bar_eth.close
      else sta
    else st
  let st2 :=
    if should_apply_funding bar.t then
      check_and_apply_funding st1 bar.t bar.bar_btc.close bar.bar_eth.close
        bar.funding_btc bar.funding_eth
    else st1
  let st3 :=
    if is_daily_reset bar.t then
      { st2 with risk := reset_consecutive_losses st2.risk }
    else st2
  let st4 := check_liquidations st3 bar.t bar.bar_btc bar.bar_eth
  let st5 := check_exits_all cfg st4 bar.t bar.bar_btc bar.bar_eth
  let st6 := check_entry_signals cfg dispatch st5 bar.t wall_clock bar.bar_btc
    bar.bar_eth bar.btc_eth_correlation bar.funding_btc bar.funding_eth
  update_equity_curve cfg st6 bar.t bar.bar_btc.close bar.bar_eth.close

/-- The main event loop of `BacktestEngine.run` over the bar sequence. -/
def run_loop (cfg : EngineConfig) (dispatch : DispatchFun) (st : EngineState)
    (bars : List BarData) (wall_clock : ℤ) : EngineState :=
  bars.foldl (fun s b => process_bar cfg dispatch s b wall_clock) st

/-- What `BacktestEngine.run` does after the loop (engine.py lines 294-299):
it only logs and calls `generate_report`; no position is touched and no
closing step runs, so the post-loop engine state is unchanged. -/
def run_epilogue (st : EngineState) : EngineState := st

/-- Model of `BacktestEngine.run` (engine.py lines 177-299): the event loop followed
by the (state-preserving) epilogue. -/
def backtest_run (cfg : EngineConfig) (dispatch : DispatchFun)
    (st : EngineState) (bars : List BarData) (wall_clock : ℤ) : EngineState :=
  run_epilogue (run_loop cfg dispatch st bars wall_clock)

/-- The trade table materialized by `generate_report` (engine.py line 989):
only trades whose `exit_time` is set are kept. -/
def report_trades (trades : List Trade) : List Trade :=
  trades.filter fun t => t.exit_time.isSome

/-! ## Per-position event views used by the invariant claims -/

/-- The two operations that can touch `trailing_stop` during a position's
life: a call of `update_trailing_stop` with that bar's high/low/ATR
(raaa_strategy.py line 688), and a call of `activate_trailing_stop`
(line 684). -/
inductive TrailEvent
  | upd (high low atr : ℚ)
  | activate

def apply_trail_event (p : Position) : TrailEvent → Position
  | .upd high low atr => p.update_trailing_stop high low atr
  | .activate => p.activate_trailing_stop

def apply_trail_events (p : Position) (evs : List TrailEvent) : Position :=
  evs.foldl apply_trail_event p

/-- The engine-level events that mutate one symbol's position slot:
* `pyramidAttempt`: the gated pyramid path — the signal gate of
  `_get_signal_without_regime_update` (no partial TP, trending regime,
  `_check_pyramiding`) followed by `_execute_entry`'s pyramid branch, whose
  cash and liquidation-buffer checks are the two Booleans;
* `exitsStep`: `check_exits` followed by `close_position` on any signalled
  exit (full close deletes, partial close shrinks);
* `openNew`: `open_position` storing a fresh position in the slot;
* `liquidate`: `_check_liquidations` deleting the position. -/
inductive PosEvent
  | pyramidAttempt (price atr : ℚ) (regime_trending cash_ok buffer_ok : Bool)
  | exitsStep (row : Bar15) (t : ℤ)
  | openNew (symbol : AssetSym) (direction : Direction) (entry_price size : ℚ)
      (entry_time : ℤ) (atr : ℚ) (regime : MarketRegime)
      (strategy_type : SignalReason)
  | liquidate

def pos_step (pos : Option Position) (e : PosEvent) : Option Position :=
  match pos, e with
  | some p, .pyramidAttempt price atr regime_trending cash_ok buffer_ok =>
    if ¬p.partial_tp_done ∧ regime_trending = true then
      match check_pyramiding p price atr with
      | some _ =>
        if cash_ok ∧ buffer_ok then
          some (p.add_pyramid price (p.original_size * (1/2)) atr)
        else some p
      | none => some p
    else some p
  | some p, .exitsStep row t =>
    let ce := check_exits p row t
    match ce.2 with
    | some es =>
      if es.exit_pct ≥ 1 then none
      else some { ce.1 with size := ce.1.size - ce.1.size * es.exit_pct }
    | none => some ce.1
  | _, .openNew symbol direction entry_price size entry_time atr regime tag =>
    some (open_position strategyInit symbol direction entry_price size
      entry_time atr regime tag).2
  | _, .liquidate => none
  | none, .pyramidAttempt _ _ _ _ _ => none
  | none, .exitsStep _ _ => none

/-- A row with a missing EMA_20 indicator. -/
def rowMissing : Row4H :=
  ⟨none, some 2, some 1, some 30, some 5, some 1, some 50, some 50⟩

/-- Risk state at exactly a 20% drawdown from peak. -/
def riskAt20pct : RiskState :=
  { initial_equity := 100000
    current_equity := 80000
    max_equity := 100000
    daily_start_equity := 100000
    current_date := some 0
    consecutive_losses := 0 }

/-- A regime state in an active 8-hour cooldown that started at minute 0. -/
def regInCooldown : RegimeState :=
  { current_regime := .TRENDING_BEAR
    previous_regime := .TRENDING_BULL
    regime_changed_at := some 0
    in_cooldown := true }

/-- A long BTC position used by concrete witnesses. -/
def posLong0 : Position :=
  Position.mk_open .BTC .LONG 100 2 0 1 .TRENDING_BULL (.strategyTag 0)

/-- An engine state holding one open BTC long. -/
def engine0 : EngineState :=
  { cash := 100000
    equity := 100000
    strategy := { positions := ⟨some posLong0, none⟩, cooldowns := ⟨none, none⟩ }
    regime := regimeInit
    risk := riskInit 100000
    liquidation_prices := ⟨some 90, none⟩
    trades := []
    trade_id_counter := 1
    equity_curve := []
    funding_events := []
    total_fees_paid := 0
    total_funding_paid := 0
    total_funding_received := 0 }

/-- A long position with an active trailing stop at 10. -/
def posTrail : Position :=
  { posLong0 with trailing_active := true, trailing_stop := some 10 }

def evsTrail : List TrailEvent := [.upd 105 95 1, .upd 103 95 2]

/-- Engine configuration as fixed in `BacktestEngine.__init__` defaults:
capital 100000, leverage 3, fees+slippage 0.07%, MMR 0.5%. -/
def cfg0 : EngineConfig := ⟨100000, 3, 7/10000, 1/200⟩

/-- A dispatch that never signals (all strategies return HOLD). -/
def dispatch0 : DispatchFun := fun _ _ _ => (.HOLD, .strategyTag 0)

/-- An open (un-exited) trade record for the BTC long of `engine0`. -/
def tradeC2 : Trade :=
  { trade_id := 1
    symbol := .BTC
    direction := .LONG
    entry_time := 0
    entry_price := 100
    entry_size := 2
    entry_margin := 200/3
    entry_regime := .TRENDING_BULL
    entry_strategy := .strategyTag 0
    exit_time := none, exit_price := none, exit_reason := none
    pnl_raw := 0, pnl_fees := 0, pnl_funding := 0, pnl_net := 0
    pnl_pct := 0, profit_r := 0, holding_time_hours := 0
    is_pyramid := false, pyramid_level := 0, is_liquidation := false }

/-- The engine state reached when the data ends while the BTC long is open. -/
def stC2 : EngineState := { engine0 with trades := [tradeC2] }

/-- A 4H row whose indicators classify as TRENDING_BEAR. -/
def rowBear : Row4H :=
  ⟨some 1, some 2, some 3, some 30, some 1, some 5, some 50, some 50⟩

/-- The engine state of `engine0` while the held regime is TRENDING_BULL. -/
def engineC1 : EngineState :=
  { engine0 with regime :=
    { current_regime := .TRENDING_BULL
      previous_regime := .UNDEFINED
      regime_changed_at := none
      in_cooldown := false } }

/-- A 4H-close bar carrying the bear row. -/
def barC1 : BarData :=
  { t := 0
    row4h_btc := rowBear
    bar_btc := ⟨101, 99, 100, 1, 50⟩
    bar_eth := ⟨51, 49, 50, 1, 50⟩
    btc_eth_correlation := none
    funding_btc := none
    funding_eth := none }

/-! ## Helper lemmas -/

theorem SymMap.get_set_self {α : Type} (m : SymMap α) (s : AssetSym) (v : α) :
    (m.set s v).get s = v := by
  cases s <;> rfl

theorem SymMap.get_set_ne {α : Type} (m : SymMap α) (s s' : AssetSym) (v : α)
    (h : s ≠ s') : (m.set s v).get s' = m.get s' := by
  cases s <;> cases s' <;> simp_all [SymMap.set, SymMap.get]

/-- C4: for every input row, `classify_row` is a total deterministic function
into the five-value regime type; it returns UNDEFINED whenever any required
indicator is missing/NaN, and otherwise agrees with the spec's first-match
rule list in the precedence order TRENDING_BULL, TRENDING_BEAR,
CHOP_HIGH_VOL, SQUEEZE_LOW_VOL, UNDEFINED. -/
theorem C4_classify_row_first_match (row : Row4H) :
    classify_row row = specClassify row ∧
    (row.anyMissing = true → classify_row row = MarketRegime.UNDEFINED) := by
  obtain ⟨e20, e50, e200, adx, pdi, mdi, ap, bw⟩ := row
  constructor
  · cases e20 <;> cases e50 <;> cases e200 <;> cases adx <;> cases pdi <;>
      cases mdi <;> cases ap <;> cases bw <;> try rfl
    simp only [classify_row, specClassify, Row4H.vals?]
    split_ifs with h1 h2 h3 h4
    · simp only [List.find?, specRule, decide_eq_true h1, Option.getD_some]
    · simp only [List.find?, specRule, decide_eq_false h1, decide_eq_true h2,
        Option.getD_some]
    · simp only [List.find?, specRule, decide_eq_false h1, decide_eq_false h2,
        decide_eq_true h3, Option.getD_some]
    · simp only [List.find?, specRule, decide_eq_false h1, decide_eq_false h2,
        decide_eq_false h3, decide_eq_true h4, Option.getD_some]
    · simp only [List.find?, specRule, decide_eq_false h1, decide_eq_false h2,
        decide_eq_false h3, decide_eq_false h4, Option.getD_none]
  · intro h
    cases e20 <;> cases e50 <;> cases e200 <;> cases adx <;> cases pdi <;>
      cases mdi <;> cases ap <;> cases bw <;>
      simp_all [Row4H.anyMissing, classify_row]

theorem C4_classify_row_first_match_witness :
    classify_row rowMissing = specClassify rowMissing ∧
    rowMissing.anyMissing = true ∧
    classify_row rowMissing = MarketRegime.UNDEFINED :=
  ⟨(C4_classify_row_first_match rowMissing).1, by decide,
   (C4_classify_row_first_match rowMissing).2 (by decide)⟩

/-- C8 counterexample: with entry 100, direction LONG, margin 1 (positive),
notional 1000 and the engine's MMR 0.005 (< 1), `max_loss` is negative and
the computed liquidation price 100.4 lies strictly ABOVE the entry price,
refuting the claim that positive margin and MMR < 1 alone put a long's
liquidation price strictly below entry. -/
theorem C8_liquidation_price_counterexample :
    (0 : ℚ) < 1 ∧ (1 : ℚ) / 200 < 1 ∧
    calculate_liquidation_price ((1 : ℚ)/200) 100 Direction.LONG 1 1000 = 502/5 ∧
    (100 : ℚ) < 502/5 := by
  refine ⟨by norm_num, by norm_num, ?_, by norm_num⟩
  simp only [calculate_liquidation_price]
  norm_num

/-- C8 (amended): given positive entry price and notional and margin
STRICTLY GREATER than notional × MMR (so the isolated-margin `max_loss` is
positive; the engine's entries satisfy this, with margin = notional/3 and
MMR = 0.005), the liquidation price is strictly below entry for a long and
strictly above entry for a short. -/
theorem C8_liquidation_price_sides (mmr entry_price margin size_usd : ℚ)
    (direction : Direction)
    (hentry : 0 < entry_price) (hsz : 0 < size_usd) (hmmr : mmr < 1)
    (hml : size_usd * mmr < margin) :
    (direction = Direction.LONG →
      calculate_liquidation_price mmr entry_price direction margin size_usd < entry_price) ∧
    (direction = Direction.SHORT →
      entry_price < calculate_liquidation_price mmr entry_price direction margin size_usd) := by
  have hszne : size_usd ≠ 0 := ne_of_gt hsz
  have hnum : 0 < size_usd / entry_price := div_pos hsz hentry
  have hloss : 0 < margin - size_usd * mmr := sub_pos.mpr hml
  have hd : 0 < (margin - size_usd * mmr) / (size_usd / entry_price) :=
    div_pos hloss hnum
  constructor
  · intro hdir
    subst hdir
    simp only [calculate_liquidation_price, if_neg hszne]
    refine max_lt hentry ?_
    linarith
  · intro hdir
    subst hdir
    simp only [calculate_liquidation_price, if_neg hszne]
    refine lt_max_iff.mpr (Or.inr ?_)
    linarith

theorem C8_liquidation_price_sides_witness :
    ((0 : ℚ) < 100 ∧ (0 : ℚ) < 1000 ∧ (1 : ℚ)/200 < 1 ∧
      (1000 : ℚ) * (1/200) < 300) ∧
    (Direction.LONG = Direction.LONG →
      calculate_liquidation_price ((1:ℚ)/200) 100 Direction.LONG 300 1000 < 100) ∧
    (Direction.LONG = Direction.SHORT →
      (100 : ℚ) < calculate_liquidation_price ((1:ℚ)/200) 100 Direction.LONG 300 1000) :=
  ⟨⟨by norm_num, by norm_num, by norm_num, by norm_num⟩,
   C8_liquidation_price_sides ((1:ℚ)/200) 100 300 1000 Direction.LONG
     (by norm_num) (by norm_num) (by norm_num) (by norm_num)⟩

/-- C9: at a funding settlement, a symbol with an open position and an
available rate has funding P&L −(notional × rate) for a long and
+(notional × rate) for a short, computed from the position's own current
notional (size × price); the P&L is applied to both cash and equity and
exactly one FundingEvent is appended for that symbol; a symbol without an
open position or without a rate is untouched; and +0.05% on a 10,000 USD
long notional yields exactly −5. -/
theorem C9_funding_settlement (st : EngineState) (current_time : ℤ)
    (price funding_rate : ℚ) (symbol : AssetSym) (p : Position)
    (hpos : st.strategy.positions.get symbol = some p) :
    ((apply_funding_for_symbol st current_time price (some funding_rate) symbol).cash =
        st.cash + funding_pnl_for p.direction (p.size * price) funding_rate ∧
     (apply_funding_for_symbol st current_time price (some funding_rate) symbol).equity =
        st.equity + funding_pnl_for p.direction (p.size * price) funding_rate ∧
     (apply_funding_for_symbol st current_time price (some funding_rate) symbol).funding_events =
        st.funding_events ++
          [⟨current_time, symbol, funding_rate, p.size * price,
            funding_pnl_for p.direction (p.size * price) funding_rate⟩]) ∧
    (∀ (st' : EngineState) (t' : ℤ) (pr : ℚ) (s' : AssetSym) (r? : Option ℚ),
      st'.strategy.positions.get s' = none →
      apply_funding_for_symbol st' t' pr r? s' = st') ∧
    (∀ (st' : EngineState) (t' : ℤ) (pr : ℚ) (s' : AssetSym),
      apply_funding_for_symbol st' t' pr none s' = st') ∧
    (∀ notional rate : ℚ,
      funding_pnl_for Direction.LONG notional rate = -(notional * rate) ∧
      funding_pnl_for Direction.SHORT notional rate = notional * rate) ∧
    funding_pnl_for Direction.LONG 10000 (5/10000) = -5 := by
  refine ⟨?_, ?_, ?_, ?_, ?_⟩
  · simp [apply_funding_for_symbol, hpos]
  · intro st' t' pr s' r? hnone
    cases r? <;> simp [apply_funding_for_symbol, hnone]
  · intro st' t' pr s'
    cases hp : st'.strategy.positions.get s' <;> simp [apply_funding_for_symbol, hp]
  · intro notional rate
    exact ⟨rfl, rfl⟩
  · simp [funding_pnl_for]
    norm_num

/-- C3 counterexample: with peak equity 100000 and current equity 80000 the
drawdown is exactly 20.0%, yet `validate_entry` rejects through the FIRM
branch (`drawdown > 0.15`), not the hard branch: the hard check
`drawdown > 0.20` is strict, so the 20% boundary is exclusive, refuting the
claim that the hard-limit branch is taken with the hard-drawdown reason. -/
theorem C3_hard_boundary_counterexample :
    get_current_drawdown riskAt20pct = 1/5 ∧
    validate_entry riskAt20pct Direction.LONG 0 0 50 none none =
      ⟨false, 0, .rejected .firmDDLimit⟩ ∧
    EntryReason.rejected RejectReason.firmDDLimit ≠
      EntryReason.rejected RejectReason.hardDDLimit := by
  refine ⟨?_, ?_, by decide⟩
  · norm_num [riskAt20pct, get_current_drawdown]
  · norm_num [validate_entry, riskAt20pct, get_current_drawdown,
      get_daily_loss_pct, dd_limit_hard, dd_limit_firm]

/-- C3 (amended): when drawdown from peak equity is exactly 20.0%
(current = 0.8 × peak, positive peak), `validate_entry` still rejects the
entry with allow = false and size_multiplier = 0, but through the FIRM
drawdown branch: the hard-limit comparison is strict, so the 20% boundary
is exclusive for the hard limit (the run is not halted by this call; the
caller merely skips the entry). -/
theorem C3_exact_20pct_drawdown_rejected (s : RiskState) (direction : Direction)
    (active_positions_count : ℕ) (current_margin_usage atr_percentile : ℚ)
    (btc_eth_correlation funding_rate : Option ℚ)
    (hM : 0 < s.max_equity) (h : s.current_equity = (4/5) * s.max_equity) :
    validate_entry s direction active_positions_count current_margin_usage
      atr_percentile btc_eth_correlation funding_rate =
      ⟨false, 0, .rejected .firmDDLimit⟩ := by
  have hdd : get_current_drawdown s = 1/5 := by
    rw [get_current_drawdown, if_neg hM.ne', h]
    field_simp
    ring
  rw [validate_entry.eq_def]
  rw [hdd]
  norm_num [dd_limit_hard, dd_limit_firm]

theorem C3_exact_20pct_drawdown_rejected_witness :
    ((0 : ℚ) < 100000 ∧ (80000 : ℚ) = (4/5) * 100000) ∧
    validate_entry riskAt20pct Direction.SHORT 1 0 50 none none =
      ⟨false, 0, .rejected .firmDDLimit⟩ :=
  ⟨⟨by norm_num, by norm_num⟩,
   C3_exact_20pct_drawdown_rejected riskAt20pct Direction.SHORT 1 0 50 none none
     (by norm_num [riskAt20pct]) (by norm_num [riskAt20pct])⟩

/-- C7 counterexample: a SHORT entry with funding rate +0.4% — a rate the
short position would RECEIVE, not pay — is nevertheless rejected with the
extreme-funding reason (all other checks passing on a fresh risk state),
refuting the claim that the 0.3% rejection requires the position to be the
paying side. -/
theorem C7_funding_direction_counterexample :
    validate_entry (riskInit 100000) Direction.SHORT 0 0 50 none (some (1/250)) =
      ⟨false, 0, .rejected .extremeFundingRate⟩ ∧
    (0 : ℚ) < 1/250 ∧ funding_stop_threshold < |(1/250 : ℚ)| := by
  have habs : |(1/250 : ℚ)| = 1/250 := abs_of_pos (by norm_num)
  refine ⟨?_, by norm_num, by rw [habs]; norm_num [funding_stop_threshold]⟩
  norm_num [validate_entry, riskInit, get_current_drawdown, get_daily_loss_pct,
    dd_limit_hard, dd_limit_firm, max_concurrent_positions, max_total_margin,
    consecutive_loss_stop_threshold, consecutive_loss_scale_threshold,
    funding_stop_threshold, funding_warning_threshold, habs]

/-- C7 (amended): when every check before the funding check passes, the
funding-rate rejection in `validate_entry` depends only on the magnitude
|funding rate| > 0.3% — the direction of the prospective position is ignored
(a receiver of funding is rejected exactly like a payer), and a rate with
0.1% < |rate| ≤ 0.3% only appends an informational warning while still
allowing the entry. -/
theorem C7_funding_check_ignores_direction (s : RiskState)
    (active_positions_count : ℕ) (current_margin_usage atr_percentile : ℚ)
    (btc_eth_correlation : Option ℚ)
    (hdd : get_current_drawdown s ≤ dd_limit_firm)
    (hdl : get_daily_loss_pct s ≤ 1/20)
    (hcnt : active_positions_count < max_concurrent_positions)
    (hmargin : current_margin_usage / s.current_equity < corr_adjusted_margin_limit)
    (hatr : atr_percentile ≤ 90)
    (hcl : s.consecutive_losses < consecutive_loss_stop_threshold) :
    ∀ (f : ℚ) (d₁ d₂ : Direction),
      validate_entry s d₁ active_positions_count current_margin_usage
        atr_percentile btc_eth_correlation (some f) =
      validate_entry s d₂ active_positions_count current_margin_usage
        atr_percentile btc_eth_correlation (some f) ∧
      ((validate_entry s d₁ active_positions_count current_margin_usage
        atr_percentile btc_eth_correlation (some f)).allow = true ↔
        |f| ≤ funding_stop_threshold) ∧
      (funding_stop_threshold < |f| →
        validate_entry s d₁ active_positions_count current_margin_usage
          atr_percentile btc_eth_correlation (some f) =
          ⟨false, 0, .rejected .extremeFundingRate⟩) := by
  intro f d₁ d₂
  have hh : ¬(get_current_drawdown s > dd_limit_hard) := by
    simp only [not_lt]
    exact le_trans hdd (by norm_num [dd_limit_firm, dd_limit_hard])
  have hf2 : ¬(get_current_drawdown s > dd_limit_firm) := not_lt.mpr hdd
  have hd3 : ¬(get_daily_loss_pct s > 1/20) := not_lt.mpr hdl
  have hc4 : ¬(active_positions_count ≥ max_concurrent_positions) := not_le.mpr hcnt
  have hm1 : ¬(current_margin_usage / s.current_equity ≥ max_total_margin) := by
    simp only [not_le]
    exact lt_of_lt_of_le hmargin
      (by norm_num [corr_adjusted_margin_limit, max_total_margin])
  have hm2 : ¬(current_margin_usage / s.current_equity ≥ corr_adjusted_margin_limit) :=
    not_le.mpr hmargin
  have ha6 : ¬(atr_percentile > 90) := not_lt.mpr hatr
  have hc9 : ¬(s.consecutive_losses ≥ consecutive_loss_stop_threshold) :=
    not_le.mpr hcl
  have key : ∀ d : Direction,
      ((validate_entry s d active_positions_count current_margin_usage
          atr_percentile btc_eth_correlation (some f)).allow = true ↔
        |f| ≤ funding_stop_threshold) ∧
      (funding_stop_threshold < |f| →
        validate_entry s d active_positions_count current_margin_usage
          atr_percentile btc_eth_correlation (some f) =
          ⟨false, 0, .rejected .extremeFundingRate⟩) := by
    intro d
    simp only [validate_entry, if_neg hh, if_neg hf2, if_neg hd3, if_neg hc4]
    rcases btc_eth_correlation with _ | c
    · simp only [Bool.false_eq_true, if_false, if_neg hm1, if_neg ha6, if_neg hc9]
      by_cases hf3 : |f| > funding_stop_threshold
      · rw [if_pos hf3]
        exact ⟨by simp [not_le.mpr hf3], fun _ => rfl⟩
      · rw [if_neg hf3]
        refine ⟨?_, fun h => absurd h hf3⟩
        by_cases hf1 : |f| > funding_warning_threshold
        · rw [if_pos hf1]
          simp [not_lt.mp hf3]
        · rw [if_neg hf1]
          simp [not_lt.mp hf3]
    · by_cases hcorr : c > corr_high_threshold
      · simp only [decide_eq_true hcorr, if_true, if_neg hm2, if_neg ha6,
          if_neg hc9]
        by_cases hf3 : |f| > funding_stop_threshold
        · rw [if_pos hf3]
          exact ⟨by simp [not_le.mpr hf3], fun _ => rfl⟩
        · rw [if_neg hf3]
          refine ⟨?_, fun h => absurd h hf3⟩
          by_cases hf1 : |f| > funding_warning_threshold
          · rw [if_pos hf1]
            simp [not_lt.mp hf3]
          · rw [if_neg hf1]
            simp [not_lt.mp hf3]
      · simp only [decide_eq_false hcorr, Bool.false_eq_true, if_false,
          if_neg hm1, if_neg ha6, if_neg hc9]
        by_cases hf3 : |f| > funding_stop_threshold
        · rw [if_pos hf3]
          exact ⟨by simp [not_le.mpr hf3], fun _ => rfl⟩
        · rw [if_neg hf3]
          refine ⟨?_, fun h => absurd h hf3⟩
          by_cases hf1 : |f| > funding_warning_threshold
          · rw [if_pos hf1]
            simp [not_lt.mp hf3]
          · rw [if_neg hf1]
            simp [not_lt.mp hf3]
  exact ⟨rfl, (key d₁).1, (key d₁).2⟩

theorem C7_funding_check_ignores_direction_witness :
    (get_current_drawdown (riskInit 100000) ≤ dd_limit_firm ∧
     get_daily_loss_pct (riskInit 100000) ≤ 1/20 ∧
     0 < max_concurrent_positions ∧
     (0 : ℚ) / (riskInit 100000).current_equity < corr_adjusted_margin_limit ∧
     (50 : ℚ) ≤ 90 ∧
     (riskInit 100000).consecutive_losses < consecutive_loss_stop_threshold) ∧
    (validate_entry (riskInit 100000) Direction.SHORT 0 0 50 none (some (1/250)) =
       validate_entry (riskInit 100000) Direction.LONG 0 0 50 none (some (1/250)) ∧
     ((validate_entry (riskInit 100000) Direction.SHORT 0 0 50 none
        (some (1/250))).allow = true ↔ |(1/250 : ℚ)| ≤ funding_stop_threshold) ∧
     (funding_stop_threshold < |(1/250 : ℚ)| →
       validate_entry (riskInit 100000) Direction.SHORT 0 0 50 none (some (1/250)) =
         ⟨false, 0, .rejected .extremeFundingRate⟩)) :=
  ⟨⟨by norm_num [riskInit, get_current_drawdown, dd_limit_firm],
    by norm_num [riskInit, get_daily_loss_pct],
    by norm_num [max_concurrent_positions],
    by norm_num [riskInit, corr_adjusted_margin_limit],
    by norm_num,
    by norm_num [riskInit, consecutive_loss_stop_threshold]⟩,
   C7_funding_check_ignores_direction (riskInit 100000) 0 0 50 none
     (by norm_num [riskInit, get_current_drawdown, dd_limit_firm])
     (by norm_num [riskInit, get_daily_loss_pct])
     (by norm_num [max_concurrent_positions])
     (by norm_num [riskInit, corr_adjusted_margin_limit])
     (by norm_num)
     (by norm_num [riskInit, consecutive_loss_stop_threshold])
     (1/250) Direction.SHORT Direction.LONG⟩

theorem aux_can_enter_fst (reg : RegimeState) (n₁ n₂ : ℤ) :
    (can_enter_new_position reg n₁).1 = (can_enter_new_position reg n₂).1 := by
  simp only [can_enter_new_position]
  split_ifs <;> rfl

theorem aux_signal_wall_clock (dispatch : DispatchFun) (strat : StrategyState)
    (reg : RegimeState) (symbol : AssetSym) (current_time : ℤ)
    (close atr : ℚ) (corr f : Option ℚ) (n₁ n₂ : ℤ) :
    (get_signal_without_regime_update dispatch strat reg symbol current_time n₁
        close atr corr f).1 =
      (get_signal_without_regime_update dispatch strat reg symbol current_time n₂
        close atr corr f).1 ∧
    (get_signal_without_regime_update dispatch strat reg symbol current_time n₁
        close atr corr f).2.signal =
      (get_signal_without_regime_update dispatch strat reg symbol current_time n₂
        close atr corr f).2.signal ∧
    ((get_signal_without_regime_update dispatch strat reg symbol current_time n₁
        close atr corr f).2.signal ≠ Signal.HOLD →
      (get_signal_without_regime_update dispatch strat reg symbol current_time n₁
          close atr corr f).2 =
        (get_signal_without_regime_update dispatch strat reg symbol current_time
          n₂ close atr corr f).2) := by
  unfold get_signal_without_regime_update
  rcases hcd : strat.cooldowns.get symbol with _ | u
  · cases hic : reg.in_cooldown
    · simp [can_enter_new_position, hic]
    · simp [can_enter_new_position, hic]
  · by_cases ht : current_time < u
    · simp [ht]
    · cases hic : reg.in_cooldown
      · simp [can_enter_new_position, hic, ht]
      · simp [can_enter_new_position, hic, ht]

theorem aux_check_entry_wall_clock (cfg : EngineConfig) (dispatch : DispatchFun)
    (st : EngineState) (current_time : ℤ) (row : Bar15) (symbol : AssetSym)
    (corr f : Option ℚ) (n₁ n₂ : ℤ) :
    check_entry_for cfg dispatch st current_time n₁ row symbol corr f =
      check_entry_for cfg dispatch st current_time n₂ row symbol corr f := by
  obtain ⟨h1, h2, h3⟩ := aux_signal_wall_clock dispatch st.strategy st.regime
    symbol current_time row.close row.ATR_14 corr f n₁ n₂
  unfold check_entry_for
  by_cases hs : (get_signal_without_regime_update dispatch st.strategy st.regime
      symbol current_time n₁ row.close row.ATR_14 corr f).2.signal = Signal.HOLD
  · have hs2 := h2.symm.trans hs
    simp [hs, hs2, h1]
  · have heq := h3 hs
    have hs2 : ¬(get_signal_without_regime_update dispatch st.strategy st.regime
        symbol current_time n₂ row.close row.ATR_14 corr f).2.signal =
        Signal.HOLD := fun h => hs (h2.trans h)
    simp [hs, hs2, h1, heq]

theorem aux_entry_signals_wall_clock (cfg : EngineConfig)
    (dispatch : DispatchFun) (st : EngineState) (current_time : ℤ)
    (bar_btc bar_eth : Bar15) (corr fb fe : Option ℚ) (n₁ n₂ : ℤ) :
    check_entry_signals cfg dispatch st current_time n₁ bar_btc bar_eth corr fb fe =
      check_entry_signals cfg dispatch st current_time n₂ bar_btc bar_eth corr fb fe := by
  unfold check_entry_signals
  rw [aux_check_entry_wall_clock cfg dispatch st current_time bar_btc .BTC corr fb n₁ n₂,
      aux_check_entry_wall_clock cfg dispatch _ current_time bar_eth .ETH corr fe n₁ n₂]

/-- C10 counterexample: `_get_remaining_cooldown_hours` reads the wall clock
(`datetime.now()`), so the very same engine state yields remaining-cooldown
8h at one wall-clock reading and 7h one hour later, and
`can_enter_new_position` returns two different answers (different rejection
reasons) — the core's behaviour does depend on a wall-clock source,
refuting the claim. -/
theorem C10_wall_clock_counterexample :
    get_remaining_cooldown_hours regInCooldown 0 = 8 ∧
    get_remaining_cooldown_hours regInCooldown 60 = 7 ∧
    can_enter_new_position regInCooldown 0 ≠ can_enter_new_position regInCooldown 60 := by
  refine ⟨?_, ?_, ?_⟩ <;>
    simp [get_remaining_cooldown_hours, regInCooldown, hoursBetween,
      cooldown_hours, can_enter_new_position] <;> norm_num

/-- C10 (amended): the per-bar state transition of the engine — hence the
trade log, the equity curve and every other recorded output — is identical
under any two wall-clock readings, because the wall-clock value only enters
the remaining-cooldown figure of a rejection reason that always accompanies
a HOLD signal; the admission Boolean of `can_enter_new_position` is likewise
wall-clock independent.  The reason string itself, however, is wall-clock
dependent (see the counterexample), so the claim's "no wall-clock
dependence" holds only for the recorded outputs, not for the reason values. -/
theorem C10_outputs_wall_clock_independent (cfg : EngineConfig)
    (dispatch : DispatchFun) (st : EngineState) (bar : BarData) (n₁ n₂ : ℤ) :
    process_bar cfg dispatch st bar n₁ = process_bar cfg dispatch st bar n₂ ∧
    (∀ reg : RegimeState,
      (can_enter_new_position reg n₁).1 = (can_enter_new_position reg n₂).1) := by
  refine ⟨?_, fun reg => aux_can_enter_fst reg n₁ n₂⟩
  simp only [process_bar]
  rw [aux_entry_signals_wall_clock]

theorem C9_funding_settlement_witness :
    engine0.strategy.positions.get .BTC = some posLong0 ∧
    (apply_funding_for_symbol engine0 480 5000 (some (5/10000)) .BTC).cash =
      engine0.cash +
        funding_pnl_for posLong0.direction (posLong0.size * 5000) (5/10000) :=
  ⟨rfl, ((C9_funding_settlement engine0 480 5000 (5/10000) .BTC posLong0 rfl).1).1⟩

theorem aux_trail_step (p : Position) (e : TrailEvent) (s : ℚ)
    (hs : p.trailing_stop = some s) :
    ∃ s', (apply_trail_event p e).trailing_stop = some s' ∧
      (p.direction = Direction.LONG → s ≤ s') ∧
      (p.direction = Direction.SHORT → s' ≤ s) ∧
      (apply_trail_event p e).direction = p.direction := by
  cases e with
  | activate =>
    exact ⟨s, hs, fun _ => le_refl s, fun _ => le_refl s, rfl⟩
  | upd high low atr =>
    obtain ⟨sym, dir, ep, sz, et, atr0, reg, stype, sl, ts, ta, ptd, t2, t3, t4,
      pyr, pc, os, pe, ir, cap, hh0, ll0, em⟩ := p
    simp only at hs
    subst hs
    cases ta <;> cases dir <;>
      rcases hh0 with _ | H <;> rcases ll0 with _ | L <;>
      simp only [apply_trail_event, Position.update_trailing_stop, Bool.false_eq_true,
        not_false_iff, if_true, not_true, if_false, ite_not] <;>
      first
        | (split_ifs <;>
           refine ⟨_, rfl, ?_, ?_, by trivial⟩ <;>
           intro hd <;>
           first
             | exact absurd hd (by decide)
             | linarith)
        | exact ⟨s, rfl, fun _ => le_refl s, fun _ => le_refl s, by trivial⟩

/-- C5: once a trailing stop value is set on a position, any sequence of
trailing-stop updates (each recomputing the candidate stop as the extreme
favorable price since activation ∓ 2×ATR with that bar's own ATR) and
activations leaves the trailing stop monotonic: non-decreasing for a long
position and non-increasing for a short position. -/
theorem C5_trailing_stop_monotone (p : Position) (evs : List TrailEvent)
    (s s' : ℚ) (hs : p.trailing_stop = some s)
    (hs' : (apply_trail_events p evs).trailing_stop = some s') :
    (p.direction = Direction.LONG → s ≤ s') ∧
    (p.direction = Direction.SHORT → s' ≤ s) := by
  induction evs generalizing p s with
  | nil =>
    simp only [apply_trail_events, List.foldl_nil] at hs'
    rw [hs] at hs'
    have heq : s = s' := Option.some.inj hs'
    subst heq
    exact ⟨fun _ => le_refl s, fun _ => le_refl s⟩
  | cons e evs ih =>
    obtain ⟨s₁, h1, hl, hsh, hdir⟩ := aux_trail_step p e s hs
    have hfold : apply_trail_events p (e :: evs) =
        apply_trail_events (apply_trail_event p e) evs := rfl
    rw [hfold] at hs'
    obtain ⟨ihl, ihs⟩ := ih (apply_trail_event p e) s₁ h1 hs'
    constructor
    · intro hd
      exact le_trans (hl hd) (ihl (hdir.trans hd))
    · intro hd
      exact le_trans (ihs (hdir.trans hd)) (hsh hd)

theorem C5_trailing_stop_monotone_witness :
    posTrail.trailing_stop = some 10 ∧
    (apply_trail_events posTrail evsTrail).trailing_stop = some 103 ∧
    ((posTrail.direction = Direction.LONG → (10 : ℚ) ≤ 103) ∧
     (posTrail.direction = Direction.SHORT → (103 : ℚ) ≤ 10)) :=
  ⟨by rfl,
   by norm_num [apply_trail_events, evsTrail, apply_trail_event, posTrail,
     posLong0, Position.mk_open, Position.update_trailing_stop],
   C5_trailing_stop_monotone posTrail evsTrail 10 103 (by rfl)
     (by norm_num [apply_trail_events, evsTrail, apply_trail_event, posTrail,
       posLong0, Position.mk_open, Position.update_trailing_stop])⟩

theorem aux_check_time_stop_fst (p : Position) (profit_r : ℚ) (t : ℤ) :
    (check_time_stop p profit_r t).1 = p := by
  simp only [check_time_stop]
  split_ifs <;> rfl

theorem aux_update_trailing_count (p : Position) (high low atr : ℚ) :
    (p.update_trailing_stop high low atr).pyramid_count = p.pyramid_count ∧
    (p.update_trailing_stop high low atr).partial_tp_done = p.partial_tp_done := by
  obtain ⟨sym, dir, ep, sz, et, atr0, reg, stype, sl, ts, ta, ptd, t2, t3, t4,
    pyr, pc, os, pe, ir, cap, hh0, ll0, em⟩ := p
  cases ta <;> cases dir <;>
    rcases hh0 with _ | H <;> rcases ll0 with _ | L <;>
    rcases ts with _ | s <;>
    simp only [Position.update_trailing_stop] <;>
    first
      | exact ⟨rfl, rfl⟩
      | (split_ifs <;> exact ⟨rfl, rfl⟩)

theorem aux_check_exits_count (p : Position) (row : Bar15) (t : ℤ) :
    (check_exits p row t).1.pyramid_count = p.pyramid_count := by
  simp only [check_exits]
  split_ifs <;>
    simp_all [aux_check_time_stop_fst, aux_update_trailing_count,
      Position.activate_trailing_stop]

theorem aux_add_pyramid_count (p : Position) (price size atr : ℚ) :
    (p.add_pyramid price size atr).pyramid_count = p.pyramid_count + 1 := by
  simp [Position.add_pyramid]

/-- C6: pyramiding is never accepted on a position that has fired a partial
take-profit or already pyramided once: (1) `_check_pyramiding` returns no
signal when `partial_tp_done` is set or `pyramid_count ≥ 1`; (2) along any
sequence of engine-level position events, `pyramid_count` never exceeds 1;
(3) a pyramid attempt on a position with `partial_tp_done` leaves the
position unchanged; (4) the exit-check step never changes `pyramid_count`,
so the count stays at its pre-partial-TP value once a partial TP has fired. -/
theorem C6_pyramid_cap_invariant :
    (∀ (p : Position) (price atr : ℚ),
      (p.partial_tp_done = true ∨ 1 ≤ p.pyramid_count) →
      check_pyramiding p price atr = none) ∧
    (∀ (evs : List PosEvent) (pos₀ : Option Position),
      (∀ p, pos₀ = some p → p.pyramid_count ≤ 1) →
      ∀ p', evs.foldl pos_step pos₀ = some p' → p'.pyramid_count ≤ 1) ∧
    (∀ (p : Position) (price atr : ℚ) (trending cash_ok buffer_ok : Bool),
      p.partial_tp_done = true →
      pos_step (some p) (.pyramidAttempt price atr trending cash_ok buffer_ok) =
        some p) ∧
    (∀ (p : Position) (row : Bar15) (t : ℤ) (p' : Position),
      pos_step (some p) (.exitsStep row t) = some p' →
      p'.pyramid_count = p.pyramid_count) := by
  have hstep4 : ∀ (p : Position) (row : Bar15) (t : ℤ) (p' : Position),
      pos_step (some p) (.exitsStep row t) = some p' →
      p'.pyramid_count = p.pyramid_count := by
    intro p row t p' h
    simp only [pos_step] at h
    split at h
    · rename_i es hce
      by_cases hpct : es.exit_pct ≥ 1
      · simp [hpct] at h
      · rw [if_neg hpct] at h
        have hinj := Option.some.inj h
        subst hinj
        simpa using aux_check_exits_count p row t
    · have hinj := Option.some.inj h
      subst hinj
      exact aux_check_exits_count p row t
  refine ⟨?_, ?_, ?_, hstep4⟩
  · intro p price atr h
    rcases h with h | h
    · by_cases hc : 1 ≤ p.pyramid_count
      · simp [check_pyramiding, hc]
      · simp [check_pyramiding, hc, h]
    · simp [check_pyramiding, h]
  · intro evs
    induction evs with
    | nil =>
      intro pos₀ hinv p' h'
      simp only [List.foldl_nil] at h'
      exact hinv p' h'
    | cons e evs ih =>
      intro pos₀ hinv p' h'
      rw [List.foldl_cons] at h'
      refine ih (pos_step pos₀ e) ?_ p' h'
      intro q hq
      cases pos₀ with
      | none =>
        cases e with
        | pyramidAttempt price atr tr c b => simp [pos_step] at hq
        | exitsStep row t => simp [pos_step] at hq
        | liquidate => simp [pos_step] at hq
        | openNew sym dir price size t atr reg tag =>
          simp only [pos_step, open_position, Position.mk_open] at hq
          have := Option.some.inj hq
          subst this
          simp
      | some p =>
        have hp := hinv p rfl
        cases e with
        | pyramidAttempt price atr tr c b =>
          simp only [pos_step] at hq
          by_cases hgate : ¬p.partial_tp_done = true ∧ tr = true
          · rw [if_pos hgate] at hq
            rcases hpy : check_pyramiding p price atr with _ | s <;> rw [hpy] at hq
            · have := Option.some.inj hq
              subst this
              exact hp
            · by_cases hcb : c = true ∧ b = true
              · rw [if_pos hcb] at hq
                have hc0 : ¬(1 ≤ p.pyramid_count) := by
                  intro hc
                  simp [check_pyramiding, hc] at hpy
                have := Option.some.inj hq
                subst this
                rw [aux_add_pyramid_count]
                omega
              · rw [if_neg hcb] at hq
                have := Option.some.inj hq
                subst this
                exact hp
          · rw [if_neg hgate] at hq
            have := Option.some.inj hq
            subst this
            exact hp
        | exitsStep row t =>
          rw [hstep4 p row t q hq]
          exact hp
        | openNew sym dir price size t atr reg tag =>
          simp only [pos_step, open_position, Position.mk_open] at hq
          have := Option.some.inj hq
          subst this
          simp
        | liquidate => simp [pos_step] at hq
  · intro p price atr trending cash_ok buffer_ok h
    simp [pos_step, h]

theorem C6_pyramid_cap_invariant_witness :
    (∀ p : Position, some posLong0 = some p → p.pyramid_count ≤ 1) ∧
    ([PosEvent.pyramidAttempt 200 1 true true true].foldl pos_step
        (some posLong0) =
      some (posLong0.add_pyramid 200 (posLong0.original_size * (1/2)) 1)) ∧
    (posLong0.add_pyramid 200 (posLong0.original_size * (1/2)) 1).pyramid_count ≤ 1 := by
  have hbase : ∀ p : Position, some posLong0 = some p → p.pyramid_count ≤ 1 := by
    intro p hp
    injection hp with h
    subst h
    norm_num [posLong0, Position.mk_open]
  have heval : [PosEvent.pyramidAttempt 200 1 true true true].foldl pos_step
      (some posLong0) =
      some (posLong0.add_pyramid 200 (posLong0.original_size * (1/2)) 1) := by
    norm_num [pos_step, posLong0, Position.mk_open, check_pyramiding,
      Position.get_profit_r]
  exact ⟨hbase, heval,
    C6_pyramid_cap_invariant.2.1 [PosEvent.pyramidAttempt 200 1 true true true]
      (some posLong0) hbase _ heval⟩

/-- C2 counterexample: a run whose bar data ends while a BTC position is
open produces a final state that STILL holds the open position, and the
position's un-exited trade record is silently dropped from the report's
trade table — `BacktestEngine.run` has no end-of-data force-close,
refuting the claim. -/
theorem C2_end_of_data_counterexample :
    (backtest_run cfg0 dispatch0 stC2 [] 0).strategy.positions.get .BTC =
      some posLong0 ∧
    (backtest_run cfg0 dispatch0 stC2 [] 0).trades = [tradeC2] ∧
    tradeC2.exit_time = none ∧
    report_trades (backtest_run cfg0 dispatch0 stC2 [] 0).trades = [] := by
  refine ⟨rfl, rfl, rfl, ?_⟩
  simp [report_trades, backtest_run, run_loop, run_epilogue, stC2, tradeC2]

/-- C2 (amended): at end of data `BacktestEngine.run` performs NO force-close:
after the last bar the engine state passes unchanged into report generation
(so any still-open position remains open), and the report's trade table
keeps exactly the trades whose exit is set, silently dropping the open
ones. -/
theorem C2_run_epilogue_closes_nothing (cfg : EngineConfig)
    (dispatch : DispatchFun) (st : EngineState) (bars : List BarData)
    (wall_clock : ℤ) :
    backtest_run cfg dispatch st bars wall_clock =
      run_loop cfg dispatch st bars wall_clock ∧
    report_trades (backtest_run cfg dispatch st bars wall_clock).trades =
      ((run_loop cfg dispatch st bars wall_clock).trades).filter
        (fun t => t.exit_time.isSome) :=
  ⟨rfl, rfl⟩

theorem aux_execute_exit_positions (cfg : EngineConfig) (st : EngineState)
    (sym : AssetSym) (es : ExitSignal) (price : ℚ) (t : ℤ)
    (hpct : es.exit_pct ≥ 1) :
    (execute_exit cfg st sym es price t).strategy.positions.get sym = none ∧
    (∀ s', s' ≠ sym →
      (execute_exit cfg st sym es price t).strategy.positions.get s' =
        st.strategy.positions.get s') ∧
    (execute_exit cfg st sym es price t).regime = st.regime := by
  simp only [execute_exit, close_position]
  rcases hpos : st.strategy.positions.get sym with _ | p
  · simp only []
    refine ⟨?_, ?_, ?_⟩ <;> simp [hpos]
  · simp only [if_pos hpct]
    by_cases hcs : p.size * es.exit_pct = 0
    · simp only [hcs, if_pos rfl]
      refine ⟨?_, ?_, ?_⟩
      · simp [SymMap.get_set_self]
      · intro s' hne
        simp [SymMap.get_set_ne _ sym s' _ (fun h => hne h.symm)]
      · trivial
    · simp only [if_neg hcs]
      refine ⟨?_, ?_, ?_⟩
      · simp [SymMap.get_set_self]
      · intro s' hne
        simp [SymMap.get_set_ne _ sym s' _ (fun h => hne h.symm)]
      · trivial

theorem aux_close_all_flat (cfg : EngineConfig) (st : EngineState) (t : ℤ)
    (bp ep : ℚ) :
    (∀ s, (close_all_positions cfg st t bp ep).strategy.positions.get s = none) ∧
    (close_all_positions cfg st t bp ep).regime = st.regime := by
  unfold close_all_positions
  have h1 := aux_execute_exit_positions cfg st .BTC ⟨.REGIME_EXIT, 1⟩ bp t (by norm_num)
  by_cases hb : (st.strategy.positions.btc).isSome = true
  · rw [if_pos hb]
    set st1 := execute_exit cfg st .BTC ⟨.REGIME_EXIT, 1⟩ bp t with hst1
    have h2 := aux_execute_exit_positions cfg st1 .ETH ⟨.REGIME_EXIT, 1⟩ ep t (by norm_num)
    by_cases he : (st1.strategy.positions.eth).isSome = true
    · rw [if_pos he]
      refine ⟨?_, ?_⟩
      · intro s
        cases s
        · rw [h2.2.1 .BTC (by decide)]
          exact h1.1
        · exact h2.1
      · rw [h2.2.2]
        exact h1.2.2
    · rw [if_neg he]
      refine ⟨?_, h1.2.2⟩
      intro s
      cases s
      · exact h1.1
      · exact Option.not_isSome_iff_eq_none.mp he
  · rw [if_neg hb]
    have hbnone : st.strategy.positions.btc = none :=
      Option.not_isSome_iff_eq_none.mp hb
    have h2 := aux_execute_exit_positions cfg st .ETH ⟨.REGIME_EXIT, 1⟩ ep t (by norm_num)
    by_cases he : (st.strategy.positions.eth).isSome = true
    · rw [if_pos he]
      refine ⟨?_, h2.2.2⟩
      intro s
      cases s
      · rw [h2.2.1 .BTC (by decide)]
        exact hbnone
      · exact h2.1
    · rw [if_neg he]
      refine ⟨?_, rfl⟩
      intro s
      cases s
      · exact hbnone
      · exact Option.not_isSome_iff_eq_none.mp he

theorem aux_funding_preserves (st : EngineState) (t : ℤ) (price : ℚ)
    (r? : Option ℚ) (sym : AssetSym) :
    (apply_funding_for_symbol st t price r? sym).strategy = st.strategy ∧
    (apply_funding_for_symbol st t price r? sym).regime = st.regime := by
  unfold apply_funding_for_symbol
  rcases hp : st.strategy.positions.get sym with _ | p <;>
    rcases r? with _ | r <;> simp [hp]

theorem aux_funding_all_preserves (st : EngineState) (t : ℤ)
    (bp ep : ℚ) (rb re : Option ℚ) :
    (check_and_apply_funding st t bp ep rb re).strategy = st.strategy ∧
    (check_and_apply_funding st t bp ep rb re).regime = st.regime := by
  unfold check_and_apply_funding
  obtain ⟨hs1, hr1⟩ := aux_funding_preserves st t bp rb .BTC
  obtain ⟨hs2, hr2⟩ := aux_funding_preserves
    (apply_funding_for_symbol st t bp rb .BTC) t ep re .ETH
  exact ⟨hs2.trans hs1, hr2.trans hr1⟩

theorem aux_liq_for_none (st : EngineState) (t : ℤ) (row : Bar15)
    (sym : AssetSym) (h : st.strategy.positions.get sym = none) :
    check_liquidation_for st t row sym = st := by
  unfold check_liquidation_for
  rcases hl : st.liquidation_prices.get sym with _ | lp <;> simp [h, hl]

theorem aux_exits_for_none (cfg : EngineConfig) (st : EngineState) (t : ℤ)
    (row : Bar15) (sym : AssetSym)
    (h : st.strategy.positions.get sym = none) :
    check_exits_for cfg st t row sym = st := by
  unfold check_exits_for
  simp [h]

theorem aux_signal_hold_in_cooldown (dispatch : DispatchFun)
    (strat : StrategyState) (reg : RegimeState) (sym : AssetSym)
    (t wc : ℤ) (close atr : ℚ) (corr f : Option ℚ)
    (h : reg.in_cooldown = true) :
    (get_signal_without_regime_update dispatch strat reg sym t wc close atr
      corr f).2.signal = Signal.HOLD ∧
    (get_signal_without_regime_update dispatch strat reg sym t wc close atr
      corr f).1.positions = strat.positions := by
  unfold get_signal_without_regime_update
  rcases hcd : strat.cooldowns.get sym with _ | u
  · simp [can_enter_new_position, h]
  · by_cases ht : t < u
    · simp [ht]
    · simp [ht, can_enter_new_position, h]

theorem aux_entry_in_cooldown (cfg : EngineConfig) (dispatch : DispatchFun)
    (st : EngineState) (t wc : ℤ) (row : Bar15) (sym : AssetSym)
    (corr f : Option ℚ) (h : st.regime.in_cooldown = true) :
    (check_entry_for cfg dispatch st t wc row sym corr f).strategy.positions =
      st.strategy.positions ∧
    (check_entry_for cfg dispatch st t wc row sym corr f).regime = st.regime := by
  obtain ⟨hsig, hpos⟩ := aux_signal_hold_in_cooldown dispatch st.strategy
    st.regime sym t wc row.close row.ATR_14 corr f h
  unfold check_entry_for
  simp [hsig, hpos]

theorem aux_equity_strategy (cfg : EngineConfig) (st : EngineState) (t : ℤ)
    (bp ep : ℚ) :
    (update_equity_curve cfg st t bp ep).strategy = st.strategy := rfl

theorem aux_tail_flat (cfg : EngineConfig) (dispatch : DispatchFun)
    (st1 : EngineState) (bar : BarData) (wc : ℤ)
    (hflat : ∀ s, st1.strategy.positions.get s = none)
    (hcd : st1.regime.in_cooldown = true) :
    ∀ s, (update_equity_curve cfg
      (check_entry_signals cfg dispatch
        (check_exits_all cfg
          (check_liquidations
            (if is_daily_reset bar.t then
              { (if should_apply_funding bar.t then
                   check_and_apply_funding st1 bar.t bar.bar_btc.close
                     bar.bar_eth.close bar.funding_btc bar.funding_eth
                 else st1) with
                risk := reset_consecutive_losses
                  (if should_apply_funding bar.t then
                     check_and_apply_funding st1 bar.t bar.bar_btc.close
                       bar.bar_eth.close bar.funding_btc bar.funding_eth
                   else st1).risk }
             else
               (if should_apply_funding bar.t then
                  check_and_apply_funding st1 bar.t bar.bar_btc.close
                    bar.bar_eth.close bar.funding_btc bar.funding_eth
                else st1))
            bar.t bar.bar_btc bar.bar_eth)
          bar.t bar.bar_btc bar.bar_eth)
        bar.t wc bar.bar_btc bar.bar_eth bar.btc_eth_correlation
        bar.funding_btc bar.funding_eth)
      bar.t bar.bar_btc.close bar.bar_eth.close).strategy.positions.get s =
      none := by
  intro s
  set st2 := if should_apply_funding bar.t then
      check_and_apply_funding st1 bar.t bar.bar_btc.close bar.bar_eth.close
        bar.funding_btc bar.funding_eth
    else st1 with hst2
  have hflat2 : ∀ s', st2.strategy.positions.get s' = none := by
    intro s'
    rw [hst2]
    split_ifs with hsf
    · rw [(aux_funding_all_preserves st1 bar.t bar.bar_btc.close
        bar.bar_eth.close bar.funding_btc bar.funding_eth).1]
      exact hflat s'
    · exact hflat s'
  have hcd2 : st2.regime.in_cooldown = true := by
    rw [hst2]
    split_ifs with hsf
    · rw [(aux_funding_all_preserves st1 bar.t bar.bar_btc.close
        bar.bar_eth.close bar.funding_btc bar.funding_eth).2]
      exact hcd
    · exact hcd
  set st3 := if is_daily_reset bar.t then
      { st2 with risk := reset_consecutive_losses st2.risk }
    else st2 with hst3
  have hflat3 : ∀ s', st3.strategy.positions.get s' = none := by
    intro s'
    rw [hst3]
    split_ifs <;> exact hflat2 s'
  have hcd3 : st3.regime.in_cooldown = true := by
    rw [hst3]
    split_ifs <;> exact hcd2
  have hliq : check_liquidations st3 bar.t bar.bar_btc bar.bar_eth = st3 := by
    unfold check_liquidations
    rw [aux_liq_for_none st3 bar.t bar.bar_btc .BTC (hflat3 .BTC),
        aux_liq_for_none st3 bar.t bar.bar_eth .ETH (hflat3 .ETH)]
  have hex : check_exits_all cfg st3 bar.t bar.bar_btc bar.bar_eth = st3 := by
    unfold check_exits_all
    rw [aux_exits_for_none cfg st3 bar.t bar.bar_btc .BTC (hflat3 .BTC),
        aux_exits_for_none cfg st3 bar.t bar.bar_eth .ETH (hflat3 .ETH)]
  rw [hliq, hex]
  unfold check_entry_signals
  obtain ⟨hp6, hr6⟩ := aux_entry_in_cooldown cfg dispatch st3 bar.t wc
    bar.bar_btc .BTC bar.btc_eth_correlation bar.funding_btc hcd3
  set st6 := check_entry_for cfg dispatch st3 bar.t wc bar.bar_btc .BTC
    bar.btc_eth_correlation bar.funding_btc with hst6
  have hcd6 : st6.regime.in_cooldown = true := by
    rw [hst6, hr6]
    exact hcd3
  obtain ⟨hp7, _⟩ := aux_entry_in_cooldown cfg dispatch st6 bar.t wc
    bar.bar_eth .ETH bar.btc_eth_correlation bar.funding_eth hcd6
  rw [aux_equity_strategy, hp7, hst6, hp6]
  exact hflat3 s

/-- C1: on a 4H bar close whose re-classification flips the regime directly
between TRENDING_BULL and TRENDING_BEAR (either direction), `update_regime`
returns `immediate_close_required = true` and starts the 8-hour cooldown at
that bar's time (`in_cooldown = true`, `regime_changed_at = bar time`), and
after the whole bar is processed the positions map is empty for every
symbol — the engine closes everything and the in-cooldown entry gate, which
runs before pyramiding and strategy dispatch, blocks any re-entry in the
same bar. -/
theorem C1_opposite_flip_flat_after_bar (cfg : EngineConfig)
    (dispatch : DispatchFun) (st : EngineState) (bar : BarData)
    (wall_clock : ℤ) (h4 : is_4h_close bar.t = true)
    (hflip : (st.regime.current_regime = MarketRegime.TRENDING_BULL ∧
              classify_row bar.row4h_btc = MarketRegime.TRENDING_BEAR) ∨
             (st.regime.current_regime = MarketRegime.TRENDING_BEAR ∧
              classify_row bar.row4h_btc = MarketRegime.TRENDING_BULL)) :
    (update_regime st.regime bar.row4h_btc bar.t).immediate_close_required = true ∧
    (update_regime st.regime bar.row4h_btc bar.t).state.in_cooldown = true ∧
    (update_regime st.regime bar.row4h_btc bar.t).state.regime_changed_at =
      some bar.t ∧
    ∀ sym, (process_bar cfg dispatch st bar wall_clock).strategy.positions.get
      sym = none := by
  have hu : (update_regime st.regime bar.row4h_btc bar.t).immediate_close_required = true ∧
      (update_regime st.regime bar.row4h_btc bar.t).state.in_cooldown = true ∧
      (update_regime st.regime bar.row4h_btc bar.t).state.regime_changed_at =
        some bar.t := by
    rcases hflip with ⟨hc, hn⟩ | ⟨hc, hn⟩ <;>
      simp [update_regime, hn, hc, is_opposite_trending_transition,
        hoursBetween, cooldown_hours] <;>
      norm_num
  refine ⟨hu.1, hu.2.1, hu.2.2, ?_⟩
  have hflat1 := (aux_close_all_flat cfg
    { st with regime := (update_regime st.regime bar.row4h_btc bar.t).state }
    bar.t bar.bar_btc.close bar.bar_eth.close).1
  have hcd1 : (close_all_positions cfg
      { st with regime := (update_regime st.regime bar.row4h_btc bar.t).state }
      bar.t bar.bar_btc.close bar.bar_eth.close).regime.in_cooldown = true := by
    rw [(aux_close_all_flat cfg
      { st with regime := (update_regime st.regime bar.row4h_btc bar.t).state }
      bar.t bar.bar_btc.close bar.bar_eth.close).2]
    exact hu.2.1
  intro sym
  simp only [process_bar]
  rw [if_pos h4, if_pos hu.1]
  exact aux_tail_flat cfg dispatch _ bar wall_clock hflat1 hcd1 sym

theorem C1_opposite_flip_flat_after_bar_witness :
    (is_4h_close barC1.t = true ∧
     engineC1.regime.current_regime = MarketRegime.TRENDING_BULL ∧
     classify_row barC1.row4h_btc = MarketRegime.TRENDING_BEAR) ∧
    ((update_regime engineC1.regime barC1.row4h_btc barC1.t).immediate_close_required = true ∧
     (update_regime engineC1.regime barC1.row4h_btc barC1.t).state.in_cooldown = true ∧
     (update_regime engineC1.regime barC1.row4h_btc barC1.t).state.regime_changed_at =
       some barC1.t ∧
     ∀ sym, (process_bar cfg0 dispatch0 engineC1 barC1 0).strategy.positions.get
       sym = none) :=
  ⟨⟨rfl, rfl, by decide⟩,
   C1_opposite_flip_flat_after_bar cfg0 dispatch0 engineC1 barC1 0 rfl
     (Or.inl ⟨rfl, by decide⟩)⟩
